import Mathlib

/-!
Verification development for the options-technical-hybrid-scanner repository.

Shallow embedding conventions:
* Python floats are modelled as rationals (ℚ); Python ints used as signal
  strengths are modelled as ℤ.
* Python dicts whose keys may be absent are modelled as structures with
  `Option` fields; `d.get(k, default)` becomes `field.getD default`, and a
  bare `d[k]` read of a possibly-missing key is modelled in the `Except`
  monad, where `.error "KeyError: k"` models the raised `KeyError`.
* Python truthiness of a level value (`levels['max_pain'] and ...`) is
  modelled explicitly: `None` and `0.0` are falsy.
* Reason strings keep the static text of the source f-strings; the
  interpolated numeric values (`{...:.2f}`) are elided, since float
  formatting is outside the embedding.
-/

set_option maxRecDepth 4000

namespace Scanner

/-- The market-context dict consumed by `TradeSetupEngine`
(src/modules/trade_setup.py).  The engine reads `trend`, `pcr`, `rsi` and
`stoch_rsi` with mandatory indexing and `gex` / `vwiv` through `.get` with
default 0, so the latter two are `Option`s. -/
structure MarketContext where
  trend : String
  pcr : ℚ
  rsi : ℚ
  stoch_rsi : ℚ
  gex : Option ℚ
  vwiv : Option ℚ
deriving DecidableEq

/-- The key-levels dict produced by `KeyLevelsMapper.map_levels`
(src/modules/key_levels.py).  `max_pain` is `None` on the failure path and
`current_price` is absent from the failure dict, so both are `Option`s. -/
structure KeyLevels where
  support : List ℚ
  resistance : List ℚ
  max_pain : Option ℚ
  high_gamma : List ℚ
  current_price : Option ℚ
  success : Bool
deriving DecidableEq

instance {ε α : Type} [DecidableEq ε] [DecidableEq α] : DecidableEq (Except ε α) :=
  fun x y =>
    match x, y with
    | Except.error a, Except.error b =>
      if h : a = b then isTrue (by rw [h]) else
        isFalse (by intro he; injection he; contradiction)
    | Except.ok a, Except.ok b =>
      if h : a = b then isTrue (by rw [h]) else
        isFalse (by intro he; injection he; contradiction)
    | Except.error _, Except.ok _ => isFalse (by intro he; exact Except.noConfusion he)
    | Except.ok _, Except.error _ => isFalse (by intro he; exact Except.noConfusion he)

/-- Reads a possibly-missing dict key; a missing key raises `KeyError`. -/
def getKey (v : Option ℚ) (k : String) : Except String ℚ :=
  match v with
  | some x => Except.ok x
  | none => Except.error ("KeyError: " ++ k)

/-! ### Per-criterion scoring in `_evaluate_bullish_setup` -/

/-- Trend criterion of `_evaluate_bullish_setup` (3 / 1 points). -/
def bullishTrendPts (c : MarketContext) : ℚ × List String :=
  if c.trend = "bullish" then (3, ["Strong bullish trend (EMA alignment)"])
  else if c.trend = "neutral" then (1, ["Neutral trend"])
  else (0, [])

/-- Sentiment (PCR) criterion of `_evaluate_bullish_setup` (2 / 1 points). -/
def bullishPcrPts (c : MarketContext) : ℚ × List String :=
  if c.pcr < 8/10 then (2, ["Bullish sentiment (PCR)"])
  else if c.pcr < 1 then (1, ["Neutral sentiment (PCR)"])
  else (0, [])

/-- Momentum (RSI) criterion of `_evaluate_bullish_setup` (2 / 1 points). -/
def bullishRsiPts (c : MarketContext) : ℚ × List String :=
  if 55 ≤ c.rsi ∧ c.rsi ≤ 80 then (2, ["Bullish momentum (RSI)"])
  else if 45 ≤ c.rsi ∧ c.rsi < 55 then (1, ["Neutral momentum (RSI)"])
  else (0, [])

/-- Stochastic-RSI criterion of `_evaluate_bullish_setup` (2 / 1 points). -/
def bullishStochPts (c : MarketContext) : ℚ × List String :=
  if c.stoch_rsi > 60 then (2, ["Bullish Stochastic RSI"])
  else if c.stoch_rsi > 40 then (1, ["Neutral Stochastic RSI"])
  else (0, [])

/-- Price-vs-support criterion of `_evaluate_bullish_setup` (3 / 1 points).
The Python condition `levels['support'] and levels['current_price'] <= ...`
short-circuits on an empty support list, so `current_price` is only read
(and can only raise `KeyError`) when support levels exist. -/
def bullishSupportPts (l : KeyLevels) : Except String (ℚ × List String) :=
  match l.support with
  | [] => Except.ok (0, [])
  | s :: _ =>
    match l.current_price with
    | none => Except.error ("KeyError: " ++ "current_price")
    | some cp =>
      if cp ≤ s * (102/100) then Except.ok (3, ["Price near support"])
      else if cp ≤ s * (105/100) then Except.ok (1, ["Price approaching support"])
      else Except.ok (0, [])

/-- GEX criterion of `_evaluate_bullish_setup` (2 points). -/
def bullishGexPts (c : MarketContext) : ℚ × List String :=
  if c.gex.getD 0 > 500 then (2, ["Positive GEX indicating bullish stability"])
  else (0, [])

/-! ### Per-criterion scoring in `_evaluate_bearish_setup` -/

/-- Trend criterion of `_evaluate_bearish_setup`. -/
def bearishTrendPts (c : MarketContext) : ℚ × List String :=
  if c.trend = "bearish" then (3, ["Strong bearish trend (EMA alignment)"])
  else if c.trend = "neutral" then (1, ["Neutral trend"])
  else (0, [])

/-- Sentiment (PCR) criterion of `_evaluate_bearish_setup`. -/
def bearishPcrPts (c : MarketContext) : ℚ × List String :=
  if c.pcr > 12/10 then (2, ["Bearish sentiment (PCR)"])
  else if c.pcr > 1 then (1, ["Neutral sentiment (PCR)"])
  else (0, [])

/-- Momentum (RSI) criterion of `_evaluate_bearish_setup`. -/
def bearishRsiPts (c : MarketContext) : ℚ × List String :=
  if 20 ≤ c.rsi ∧ c.rsi ≤ 45 then (2, ["Bearish momentum (RSI)"])
  else if 45 < c.rsi ∧ c.rsi ≤ 55 then (1, ["Neutral momentum (RSI)"])
  else (0, [])

/-- Stochastic-RSI criterion of `_evaluate_bearish_setup`. -/
def bearishStochPts (c : MarketContext) : ℚ × List String :=
  if c.stoch_rsi < 40 then (2, ["Bearish Stochastic RSI"])
  else if c.stoch_rsi < 60 then (1, ["Neutral Stochastic RSI"])
  else (0, [])

/-- Price-vs-resistance criterion of `_evaluate_bearish_setup`. -/
def bearishResistancePts (l : KeyLevels) : Except String (ℚ × List String) :=
  match l.resistance with
  | [] => Except.ok (0, [])
  | r :: _ =>
    match l.current_price with
    | none => Except.error ("KeyError: " ++ "current_price")
    | some cp =>
      if cp ≥ r * (98/100) then Except.ok (3, ["Price near resistance"])
      else if cp ≥ r * (95/100) then Except.ok (1, ["Price approaching resistance"])
      else Except.ok (0, [])

/-- GEX criterion of `_evaluate_bearish_setup`. -/
def bearishGexPts (c : MarketContext) : ℚ × List String :=
  if c.gex.getD 0 < -500 then (2, ["Negative GEX indicating bearish pressure"])
  else (0, [])

/-! ### Per-criterion scoring in `_evaluate_neutral_setup` -/

/-- Trend criterion of `_evaluate_neutral_setup`. -/
def neutralTrendPts (c : MarketContext) : ℚ × List String :=
  if c.trend = "neutral" then (3, ["Neutral trend (flat EMAs)"]) else (0, [])

/-- Sentiment (PCR) criterion of `_evaluate_neutral_setup`. -/
def neutralPcrPts (c : MarketContext) : ℚ × List String :=
  if 8/10 ≤ c.pcr ∧ c.pcr ≤ 12/10 then (2, ["Neutral sentiment (PCR)"]) else (0, [])

/-- Implied-volatility criterion of `_evaluate_neutral_setup`. -/
def neutralIvPts (c : MarketContext) : ℚ × List String :=
  if c.vwiv.getD 0 < 4/10 then (2, ["Low implied volatility"])
  else if c.vwiv.getD 0 < 5/10 then (1, ["Moderate implied volatility"])
  else (0, [])

/-- Momentum (RSI) criterion of `_evaluate_neutral_setup`. -/
def neutralRsiPts (c : MarketContext) : ℚ × List String :=
  if 45 ≤ c.rsi ∧ c.rsi ≤ 65 then (2, ["Neutral momentum (RSI)"]) else (0, [])

/-- Stochastic-RSI criterion of `_evaluate_neutral_setup`. -/
def neutralStochPts (c : MarketContext) : ℚ × List String :=
  if 25 ≤ c.stoch_rsi ∧ c.stoch_rsi ≤ 75 then (2, ["Neutral Stochastic RSI"]) else (0, [])

/-- Price-vs-max-pain criterion of `_evaluate_neutral_setup`.  The guard
`levels['max_pain'] and ...` is Python truthiness: both `None` and `0.0`
short-circuit the criterion; otherwise `levels['current_price']` is read. -/
def neutralMaxPainPts (l : KeyLevels) : Except String (ℚ × List String) :=
  match l.max_pain with
  | none => Except.ok (0, [])
  | some mp =>
    if mp = 0 then Except.ok (0, [])
    else
      match l.current_price with
      | none => Except.error ("KeyError: " ++ "current_price")
      | some cp =>
        if |cp - mp| / mp < 2/100 then Except.ok (3, ["Price near Max Pain"])
        else if |cp - mp| / mp < 5/100 then Except.ok (1, ["Price approaching Max Pain"])
        else Except.ok (0, [])

/-- GEX criterion of `_evaluate_neutral_setup`. -/
def neutralGexPts (c : MarketContext) : ℚ × List String :=
  if |c.gex.getD 0| < 200 then (2, ["GEX near zero indicating potential breakout"])
  else (0, [])

/-! ### Assembling the three evaluators -/

/-- Accumulated `(points, max_points, reasons)` of `_evaluate_bullish_setup`.
Each criterion adds its earned points to `points`, its cap to `max_points`
(unconditionally: 3+2+2+2+3+2) and its reason strings in evaluation order. -/
def bullishCounts (c : MarketContext) (l : KeyLevels) :
    Except String (ℚ × ℚ × List String) :=
  match bullishSupportPts l with
  | Except.error e => Except.error e
  | Except.ok sp =>
    Except.ok
      ((bullishTrendPts c).1 + (bullishPcrPts c).1 + (bullishRsiPts c).1 +
         (bullishStochPts c).1 + sp.1 + (bullishGexPts c).1,
       3 + 2 + 2 + 2 + 3 + 2,
       (bullishTrendPts c).2 ++ (bullishPcrPts c).2 ++ (bullishRsiPts c).2 ++
         (bullishStochPts c).2 ++ sp.2 ++ (bullishGexPts c).2)

/-- Accumulated `(points, max_points, reasons)` of `_evaluate_bearish_setup`. -/
def bearishCounts (c : MarketContext) (l : KeyLevels) :
    Except String (ℚ × ℚ × List String) :=
  match bearishResistancePts l with
  | Except.error e => Except.error e
  | Except.ok rp =>
    Except.ok
      ((bearishTrendPts c).1 + (bearishPcrPts c).1 + (bearishRsiPts c).1 +
         (bearishStochPts c).1 + rp.1 + (bearishGexPts c).1,
       3 + 2 + 2 + 2 + 3 + 2,
       (bearishTrendPts c).2 ++ (bearishPcrPts c).2 ++ (bearishRsiPts c).2 ++
         (bearishStochPts c).2 ++ rp.2 ++ (bearishGexPts c).2)

/-- Accumulated `(points, max_points, reasons)` of `_evaluate_neutral_setup`
(caps 3+2+2+2+2+3+2). -/
def neutralCounts (c : MarketContext) (l : KeyLevels) :
    Except String (ℚ × ℚ × List String) :=
  match neutralMaxPainPts l with
  | Except.error e => Except.error e
  | Except.ok mpp =>
    Except.ok
      ((neutralTrendPts c).1 + (neutralPcrPts c).1 + (neutralIvPts c).1 +
         (neutralRsiPts c).1 + (neutralStochPts c).1 + mpp.1 + (neutralGexPts c).1,
       3 + 2 + 2 + 2 + 2 + 3 + 2,
       (neutralTrendPts c).2 ++ (neutralPcrPts c).2 ++ (neutralIvPts c).2 ++
         (neutralRsiPts c).2 ++ (neutralStochPts c).2 ++ mpp.2 ++ (neutralGexPts c).2)

/-- Shared epilogue of the three `_evaluate_*_setup` methods:
`confidence = (points / max_points) * 100 if max_points > 0 else 0` and
`is_valid = confidence > 60`; returns `(is_valid, confidence, reasons)`. -/
def setupScore (points maxPoints : ℚ) (reasons : List String) :
    Bool × ℚ × List String :=
  let confidence : ℚ := if maxPoints > 0 then points / maxPoints * 100 else 0
  (decide (confidence > 60), confidence, reasons)

/-- `_evaluate_bullish_setup`: returns `(is_valid, confidence, reasons)`. -/
def evaluateBullishSetup (c : MarketContext) (l : KeyLevels) :
    Except String (Bool × ℚ × List String) :=
  match bullishCounts c l with
  | Except.error e => Except.error e
  | Except.ok (p, m, rs) => Except.ok (setupScore p m rs)

/-- `_evaluate_bearish_setup`: returns `(is_valid, confidence, reasons)`. -/
def evaluateBearishSetup (c : MarketContext) (l : KeyLevels) :
    Except String (Bool × ℚ × List String) :=
  match bearishCounts c l with
  | Except.error e => Except.error e
  | Except.ok (p, m, rs) => Except.ok (setupScore p m rs)

/-- `_evaluate_neutral_setup`: returns `(is_valid, confidence, reasons)`. -/
def evaluateNeutralSetup (c : MarketContext) (l : KeyLevels) :
    Except String (Bool × ℚ × List String) :=
  match neutralCounts c l with
  | Except.error e => Except.error e
  | Except.ok (p, m, rs) => Except.ok (setupScore p m rs)

/-! ### `determine_setup`: candidate selection -/

/-- One entry of the `setups` list in `determine_setup`:
`(label, confidence, valid, reasons)`. -/
structure SetupCand where
  label : String
  confidence : ℚ
  valid : Bool
  reasons : List String
deriving DecidableEq

/-- Sort key `lambda x: (x[2], x[1])`, i.e. `(is_valid, confidence)`. -/
def candKey (s : SetupCand) : Bool × ℚ := (s.valid, s.confidence)

/-- Strict less-than on Python tuples `(bool, float)`; `False < True`. -/
def keyLtB (a b : Bool × ℚ) : Bool :=
  (!a.1 && b.1) || ((a.1 == b.1) && decide (a.2 < b.2))

/-- Stable insertion into a list sorted descending by `candKey`;
an element keeps its place ahead of later elements with an equal key,
matching the stability of Python `list.sort(key=..., reverse=True)`. -/
def insertDesc (x : SetupCand) : List SetupCand → List SetupCand
  | [] => [x]
  | y :: ys =>
    if keyLtB (candKey x) (candKey y) then y :: insertDesc x ys
    else x :: y :: ys

/-- Stable descending sort by `candKey`, modelling
`setups.sort(key=lambda x: (x[2], x[1]), reverse=True)`. -/
def sortDesc : List SetupCand → List SetupCand
  | [] => []
  | x :: xs => insertDesc x (sortDesc xs)

/-- The dict returned by `determine_setup`: keys `setup`, `confidence`,
`reasons` and `all_setups` (the three candidates' raw evaluations in
bullish, bearish, neutral order). -/
structure SetupResult where
  setup : String
  confidence : ℚ
  reasons : List String
  all_setups :
    (Bool × ℚ × List String) × (Bool × ℚ × List String) × (Bool × ℚ × List String)
deriving DecidableEq

/-- `TradeSetupEngine.determine_setup`: evaluates the three candidates,
sorts them descending by `(is_valid, confidence)`, takes the head, and
prefixes the label with `weak_` when the head is not valid. -/
def determineSetup (c : MarketContext) (l : KeyLevels) : Except String SetupResult :=
  match evaluateBullishSetup c l, evaluateBearishSetup c l, evaluateNeutralSetup c l with
  | Except.ok (bv, bc, br), Except.ok (sv, sc, sr), Except.ok (nv, nc, nr) =>
    let setups : List SetupCand :=
      [⟨"bullish", bc, bv, br⟩, ⟨"bearish", sc, sv, sr⟩, ⟨"neutral", nc, nv, nr⟩]
    let top := (sortDesc setups).headD ⟨"bullish", bc, bv, br⟩
    let setup_type := if top.valid then top.label else "weak_" ++ top.label
    Except.ok
      { setup := setup_type, confidence := top.confidence, reasons := top.reasons,
        all_setups := ((bv, bc, br), (sv, sc, sr), (nv, nc, nr)) }
  | Except.error e, _, _ => Except.error e
  | _, Except.error e, _ => Except.error e
  | _, _, Except.error e => Except.error e

/-! ### Key-levels mapping (src/modules/key_levels.py) -/

/-- One row of an options table: the columns `_calculate_max_pain` and
`_identify_support_resistance` read (`strike`, `openInterest`, `gamma`).
`gamma` is only consulted when the table has a gamma column. -/
structure OptionRow where
  strike : ℚ
  openInterest : ℚ
  gamma : ℚ
deriving DecidableEq

/-- An options DataFrame: its rows plus whether a `gamma` column exists
(`'gamma' in calls.columns`). -/
structure OptionTable where
  rows : List OptionRow
  hasGammaColumn : Bool
deriving DecidableEq

/-- The per-expiration pair stored in `self.options_data[date]`. -/
structure OptionChain where
  calls : OptionTable
  puts : OptionTable
deriving DecidableEq

/-- Insertion step of `sorted(set(l))`: keeps the list strictly ascending,
dropping duplicates. -/
def insertSorted (x : ℚ) : List ℚ → List ℚ
  | [] => [x]
  | y :: ys =>
    if x < y then x :: y :: ys
    else if x = y then y :: ys
    else y :: insertSorted x ys

/-- `sorted(set(l))`: the strictly ascending list of the distinct elements. -/
def sortedUnique (l : List ℚ) : List ℚ := l.foldr insertSorted []

/-- `total_pain` at a candidate strike `s`:
`sum(calls['openInterest'] * max(0, s - calls['strike'])) +
 sum(puts['openInterest'] * max(0, puts['strike'] - s))`. -/
def totalPain (calls puts : List OptionRow) (s : ℚ) : ℚ :=
  (calls.map (fun r => r.openInterest * max 0 (s - r.strike))).sum +
    (puts.map (fun r => r.openInterest * max 0 (r.strike - s))).sum

/-- The candidate strikes of `_calculate_max_pain`:
`sorted(set(calls['strike'].tolist() + puts['strike'].tolist()))`. -/
def strikesOf (calls puts : List OptionRow) : List ℚ :=
  sortedUnique (calls.map OptionRow.strike ++ puts.map OptionRow.strike)

/-- Accumulator step of Python `min(pain, key=lambda x: x[1])`: the running
minimum is replaced only on a strictly smaller value, so the first minimal
element of the list wins. -/
def painStep (acc y : ℚ × ℚ) : ℚ × ℚ := if y.2 < acc.2 then y else acc

/-- `_calculate_max_pain` on the nearest expiration's tables: the strike of
the first `(strike, total_pain)` pair with minimal pain over the ascending
candidate strikes; the current price when there are no strikes. -/
def calculateMaxPain (calls puts : List OptionRow) (currentPrice : ℚ) : ℚ :=
  let pain := (strikesOf calls puts).map (fun s => (s, totalPain calls puts s))
  match pain with
  | [] => currentPrice
  | p :: ps => (ps.foldl painStep p).1

/-- Insertion step of `calls.sort_values('openInterest', ascending=False)`.
pandas' default quicksort leaves the order of equal open-interest rows
implementation-defined; the embedding fixes the stable order. -/
def insertOIDesc (x : OptionRow) : List OptionRow → List OptionRow
  | [] => [x]
  | y :: ys =>
    if y.openInterest > x.openInterest then y :: insertOIDesc x ys
    else x :: y :: ys

/-- Rows sorted descending by open interest. -/
def sortOIDesc (rows : List OptionRow) : List OptionRow :=
  rows.foldr insertOIDesc []

/-- `_identify_support_resistance` on the nearest expiration: returns
`(support_levels, resistance_levels)` — the top-5-open-interest put strikes
below / call strikes above the current price, plus high-gamma strikes on the
matching side when both tables have a gamma column; deduplicated, support
sorted descending and resistance ascending. -/
def identifySupportResistance (chain : OptionChain) (cp : ℚ) : List ℚ × List ℚ :=
  let high_oi_calls := (sortOIDesc chain.calls.rows).take 5
  let high_oi_puts := (sortOIDesc chain.puts.rows).take 5
  let resistance0 := (high_oi_calls.filter (fun r => r.strike > cp)).map OptionRow.strike
  let support0 := (high_oi_puts.filter (fun r => r.strike < cp)).map OptionRow.strike
  let withGamma :=
    if chain.calls.hasGammaColumn && chain.puts.hasGammaColumn then
      let hgc := ((chain.calls.rows.filter (fun r => r.gamma > 5/100)).map OptionRow.strike).filter
        (fun s => s > cp)
      let hgp := ((chain.puts.rows.filter (fun r => r.gamma > 5/100)).map OptionRow.strike).filter
        (fun s => s < cp)
      (resistance0 ++ hgc, support0 ++ hgp)
    else (resistance0, support0)
  ((sortedUnique withGamma.2).reverse, sortedUnique withGamma.1)

/-- `_calculate_greeks`: across all fetched expirations, the ascending
deduplicated strikes with gamma above 0.05 from both sides, collected only
from chains whose call and put tables both have a gamma column. -/
def calculateGreeks (chains : List (String × OptionChain)) : List ℚ :=
  sortedUnique
    (chains.foldr
      (fun dc acc =>
        if dc.2.calls.hasGammaColumn && dc.2.puts.hasGammaColumn then
          (dc.2.calls.rows.filter (fun r => r.gamma > 5/100)).map OptionRow.strike ++
            (dc.2.puts.rows.filter (fun r => r.gamma > 5/100)).map OptionRow.strike ++ acc
        else acc)
      [])

/-- `KeyLevelsMapper.map_levels`, with the data `_fetch_data` would have
stored passed explicitly: the closing-price history and the per-expiration
chains (already restricted to the nearest three).  An empty price history or
an empty surface is the `_fetch_data` failure path, which returns the
failure dict (empty levels, `max_pain = None`, no `current_price` key,
`success = False`). -/
def mapLevels (closes : List ℚ) (chains : List (String × OptionChain)) : KeyLevels :=
  match closes.getLast?, chains with
  | some cp, (_, nearest) :: _ =>
    let sr := identifySupportResistance nearest cp
    { support := sr.1, resistance := sr.2,
      max_pain := some (calculateMaxPain nearest.calls.rows nearest.puts.rows cp),
      high_gamma := calculateGreeks chains,
      current_price := some cp, success := true }
  | _, _ =>
    { support := [], resistance := [], max_pain := none, high_gamma := [],
      current_price := none, success := false }

/-! ### Risk management (src/modules/risk_management.py) and the
setup-results dict consumed by it and by the confirmation module.

`RiskManager` and `ConfirmationModule` read the `setup_results` dict only
through `.get(...)` or after an `'key' in setup_results` membership test, so
every key they touch is modelled as an `Option` field.  The dict actually
passed by `scanner._analyze_symbol` is the output of `determine_setup`,
which carries only `setup`, `confidence`, `reasons` and `all_setups`. -/

/-- Python `str.startswith`, used for the label dispatch
(`setup_type.startswith('bullish')` etc.), modelled on the character lists
of the strings. -/
def pyStartswith (s p : String) : Bool := p.data.isPrefixOf s.data

structure SetupDict where
  setup : Option String
  confidence : Option ℚ
  vwiv : Option ℚ
  gex : Option ℚ
  current_price : Option ℚ
  support : Option (List ℚ)
  resistance : Option (List ℚ)
  ema10 : Option ℚ
  ema20 : Option ℚ
  rsi : Option ℚ
  stoch_rsi : Option ℚ
  max_pain : Option ℚ
deriving DecidableEq

/-- The dict `determine_setup` returns, as seen by the downstream `.get`
readers: only `setup` and `confidence` are present among the keys they
consult (`reasons` and `all_setups` are never read by them). -/
def setupResultToDict (r : SetupResult) : SetupDict :=
  { setup := some r.setup, confidence := some r.confidence, vwiv := none,
    gex := none, current_price := none, support := none, resistance := none,
    ema10 := none, ema20 := none, rsi := none, stoch_rsi := none,
    max_pain := none }

/-- The `factors` sub-dict of `_calculate_position_size`. -/
structure PositionSizeFactors where
  iv : ℚ
  gex : ℚ
  confidence : ℚ
  base_size : ℚ
  gex_factor : ℚ
  confidence_factor : ℚ
deriving DecidableEq

/-- Output of `_calculate_position_size`. -/
structure PositionSizeRec where
  recommended : ℚ
  conservative : ℚ
  aggressive : ℚ
  factors : PositionSizeFactors
deriving DecidableEq

/-- `RiskManager._calculate_position_size`: a base percentage by IV tier,
dampened by a GEX factor and a capped confidence factor. -/
def calculatePositionSize (sd : SetupDict) : PositionSizeRec :=
  let iv := sd.vwiv.getD (3/10)
  let gex := sd.gex.getD 0
  let confidence := sd.confidence.getD 50
  let base_size : ℚ :=
    if iv < 3/10 then 2/100
    else if iv < 45/100 then 15/1000
    else if iv < 6/10 then 1/100
    else 5/1000
  let gex_factor : ℚ :=
    if |gex| > 1000 then 7/10 else if |gex| > 500 then 8/10 else 1
  let confidence_factor := min (confidence / 100) 1
  let position_size := base_size * gex_factor * confidence_factor
  { recommended := position_size,
    conservative := position_size * (7/10),
    aggressive := position_size * (13/10),
    factors := ⟨iv, gex, confidence, base_size, gex_factor, confidence_factor⟩ }

/-- The `factors` sub-dict of `_calculate_stop_loss`: the degenerate early
return carries only `current_price`; the normal path carries six keys. -/
inductive StopLossFactors where
  | degenerate (current_price : ℚ)
  | full (current_price iv support resistance ema10 ema20 : ℚ)
deriving DecidableEq

/-- Output of `_calculate_stop_loss`; the degenerate early return has no
`percentage_value` key. -/
structure StopLossRec where
  technical : ℚ
  percentage : ℚ
  percentage_value : Option ℚ
  factors : StopLossFactors
deriving DecidableEq

/-- `RiskManager._calculate_stop_loss`.  With no (or zero) current price it
returns the degenerate zeros; otherwise a technical stop from the nearest
support/resistance, the EMA20, or a percentage fallback tiered by IV. -/
def calculateStopLoss (sd : SetupDict) (setup_type : String) : StopLossRec :=
  let current_price := sd.current_price.getD 0
  if current_price = 0 then
    { technical := 0, percentage := 0, percentage_value := none,
      factors := StopLossFactors.degenerate 0 }
  else
    let support_levels := sd.support.getD []
    let resistance_levels := sd.resistance.getD []
    let ema10 := sd.ema10.getD 0
    let ema20 := sd.ema20.getD 0
    let iv := sd.vwiv.getD (3/10)
    let percentage_stop : ℚ :=
      if iv < 3/10 then 2/100
      else if iv < 45/100 then 3/100
      else if iv < 6/10 then 5/100
      else 7/100
    let technical_stop :=
      if pyStartswith setup_type "bullish" then
        match support_levels with
        | s :: _ => s * (99/100)
        | [] => if ema20 > 0 then ema20 * (99/100) else current_price * (1 - percentage_stop)
      else if pyStartswith setup_type "bearish" then
        match resistance_levels with
        | r :: _ => r * (101/100)
        | [] => if ema20 > 0 then ema20 * (101/100) else current_price * (1 + percentage_stop)
      else current_price * (1 - percentage_stop)
    let percentage_stop_price :=
      if pyStartswith setup_type "bullish" then current_price * (1 - percentage_stop)
      else current_price * (1 + percentage_stop)
    { technical := technical_stop, percentage := percentage_stop_price,
      percentage_value := some percentage_stop,
      factors := StopLossFactors.full current_price iv (support_levels.headD 0)
        (resistance_levels.headD 0) ema10 ema20 }

/-- Output of `_calculate_risk_reward`; the degenerate early return has no
`target_price` key. -/
structure RiskRewardRec where
  ratio : ℚ
  reward : ℚ
  risk : ℚ
  target_price : Option ℚ
deriving DecidableEq

/-- `RiskManager._calculate_risk_reward`: risk is the distance to the
technical stop, reward the distance to the nearest opposing level (or a
default percentage of price), and the ratio is 0 unless risk is positive. -/
def calculateRiskReward (sd : SetupDict) (setup_type : String)
    (stop_loss : StopLossRec) : RiskRewardRec :=
  let current_price := sd.current_price.getD 0
  if current_price = 0 then
    { ratio := 0, reward := 0, risk := 0, target_price := none }
  else
    let support_levels := sd.support.getD []
    let resistance_levels := sd.resistance.getD []
    let risk :=
      if pyStartswith setup_type "bullish" then current_price - stop_loss.technical
      else if pyStartswith setup_type "bearish" then stop_loss.technical - current_price
      else |current_price - stop_loss.technical|
    let reward :=
      if pyStartswith setup_type "bullish" then
        match resistance_levels with
        | r :: _ => r - current_price
        | [] => current_price * (5/100)
      else if pyStartswith setup_type "bearish" then
        match support_levels with
        | s :: _ => current_price - s
        | [] => current_price * (5/100)
      else current_price * (2/100)
    let ratio := if risk > 0 then reward / risk else 0
    { ratio := ratio, reward := reward, risk := risk,
      target_price := some (if pyStartswith setup_type "bullish" then current_price + reward
        else current_price - reward) }

/-- Output of `RiskManager.get_recommendations`. -/
structure RiskRecommendation where
  position_size : PositionSizeRec
  stop_loss : StopLossRec
  risk_reward : RiskRewardRec
  success : Bool
deriving DecidableEq

/-- `RiskManager.get_recommendations`: position size, stop loss and
risk/reward from the setup-results dict, with
`setup_type = setup_results.get('setup', 'unknown')`. -/
def getRecommendations (sd : SetupDict) : RiskRecommendation :=
  let setup_type := sd.setup.getD "unknown"
  let position_size := calculatePositionSize sd
  let stop_loss := calculateStopLoss sd setup_type
  let risk_reward := calculateRiskReward sd setup_type stop_loss
  { position_size := position_size, stop_loss := stop_loss,
    risk_reward := risk_reward, success := true }

/-! ### Confirmation module (src/modules/confirmation.py)

The price/indicator frame `_fetch_data` builds is passed explicitly as a
row list (columns `Close`, `RSI`, `Stoch_RSI`, `Stoch_RSI_D`,
`Volume_Ratio`); `data = none` models the fetch failure.  The frame has no
`ema10` column, so the `prev['ema10']` read in `_check_exit_signals` is a
`KeyError` whenever it is reached. -/

structure ConfRow where
  close : ℚ
  rsi : ℚ
  stoch_rsi : ℚ
  stoch_rsi_d : ℚ
  volume_ratio : ℚ
deriving DecidableEq

/-- `ConfirmationModule._check_bullish_entry`: additive signal strength over
five criteria; fires above 50. -/
def checkBullishEntry (rows : List ConfRow) (sd : SetupDict) :
    Bool × ℤ × List String :=
  if rows.length < 5 then (false, 0, ["Insufficient data"])
  else
    match rows.getLast?, rows.dropLast.getLast? with
    | some latest, some prev =>
      let (s1, r1) :=
        if prev.stoch_rsi < 60 ∧ latest.stoch_rsi > prev.stoch_rsi ∧
            latest.stoch_rsi_d > prev.stoch_rsi_d then
          ((30 : ℤ), ["Stochastic RSI hooking up from below 60"])
        else (0, [])
      let (s2, r2) :=
        if latest.volume_ratio > 3/2 then ((20 : ℤ), ["Volume spike"]) else (0, [])
      let (s3, r3) :=
        match sd.support with
        | some (s :: _) =>
          if |latest.close - s| / s < 2/100 then ((25 : ℤ), ["Price near support level"])
          else (0, [])
        | _ => (0, [])
      let (s4, r4) :=
        match sd.ema10, sd.ema20 with
        | some e10, some e20 =>
          if latest.close > e10 ∧ latest.close > e20 then
            ((15 : ℤ), ["Price above key EMAs"])
          else (0, [])
        | _, _ => (0, [])
      let (s5, r5) :=
        match sd.rsi with
        | some rsi =>
          if rsi > prev.rsi ∧ rsi > 50 then ((10 : ℤ), ["RSI showing upward momentum"])
          else (0, [])
        | none => (0, [])
      let strength := s1 + s2 + s3 + s4 + s5
      (decide (strength > 50), strength, r1 ++ r2 ++ r3 ++ r4 ++ r5)
    | _, _ => (false, 0, ["Insufficient data"])

/-- `ConfirmationModule._check_bearish_entry`. -/
def checkBearishEntry (rows : List ConfRow) (sd : SetupDict) :
    Bool × ℤ × List String :=
  if rows.length < 5 then (false, 0, ["Insufficient data"])
  else
    match rows.getLast?, rows.dropLast.getLast? with
    | some latest, some prev =>
      let (s1, r1) :=
        if prev.stoch_rsi > 40 ∧ latest.stoch_rsi < prev.stoch_rsi ∧
            latest.stoch_rsi_d < prev.stoch_rsi_d then
          ((30 : ℤ), ["Stochastic RSI hooking down from above 40"])
        else (0, [])
      let (s2, r2) :=
        if latest.volume_ratio > 3/2 then ((20 : ℤ), ["Volume spike"]) else (0, [])
      let (s3, r3) :=
        match sd.resistance with
        | some (r :: _) =>
          if |latest.close - r| / r < 2/100 then ((25 : ℤ), ["Price near resistance level"])
          else (0, [])
        | _ => (0, [])
      let (s4, r4) :=
        match sd.ema10, sd.ema20 with
        | some e10, some e20 =>
          if latest.close < e10 ∧ latest.close < e20 then
            ((15 : ℤ), ["Price below key EMAs"])
          else (0, [])
        | _, _ => (0, [])
      let (s5, r5) :=
        match sd.rsi with
        | some rsi =>
          if rsi < prev.rsi ∧ rsi < 50 then ((10 : ℤ), ["RSI showing downward momentum"])
          else (0, [])
        | none => (0, [])
      let strength := s1 + s2 + s3 + s4 + s5
      (decide (strength > 50), strength, r1 ++ r2 ++ r3 ++ r4 ++ r5)
    | _, _ => (false, 0, ["Insufficient data"])

/-- `ConfirmationModule._check_neutral_entry`; only the latest row is read,
and `setup_results['max_pain']` is subject to Python truthiness. -/
def checkNeutralEntry (rows : List ConfRow) (sd : SetupDict) :
    Bool × ℤ × List String :=
  if rows.length < 5 then (false, 0, ["Insufficient data"])
  else
    match rows.getLast? with
    | some latest =>
      let (s1, r1) :=
        match sd.max_pain with
        | some mp =>
          if mp ≠ 0 ∧ |latest.close - mp| / mp < 1/100 then
            ((40 : ℤ), ["Price stalling at Max Pain"])
          else (0, [])
        | none => (0, [])
      let (s2, r2) :=
        match sd.vwiv with
        | some v => if v < 3/10 then ((20 : ℤ), ["Low implied volatility"]) else (0, [])
        | none => (0, [])
      let (s3, r3) :=
        match sd.rsi with
        | some rsi =>
          if 45 ≤ rsi ∧ rsi ≤ 55 then ((20 : ℤ), ["RSI in neutral zone"]) else (0, [])
        | none => (0, [])
      let (s4, r4) :=
        match sd.stoch_rsi with
        | some s =>
          if 40 ≤ s ∧ s ≤ 60 then ((20 : ℤ), ["Stochastic RSI in neutral zone"])
          else (0, [])
        | none => (0, [])
      let strength := s1 + s2 + s3 + s4
      (decide (strength > 50), strength, r1 ++ r2 ++ r3 ++ r4)
    | none => (false, 0, ["Insufficient data"])

/-- `ConfirmationModule._check_exit_signals`.  The trend-reversal criterion
reads `prev['ema10']`, a column the confirmation frame never has, so
reaching that read raises `KeyError` — it is guarded by the setup label
matching `bullish`/`bearish` and by the first half of the `and`. -/
def checkExitSignals (setup_type : String) (rows : List ConfRow)
    (sd : SetupDict) : Except String (Bool × ℤ × List String) :=
  if rows.length < 5 then Except.ok (false, 0, ["Insufficient data"])
  else
    match rows.getLast?, rows.dropLast.getLast? with
    | some latest, some prev =>
      let p1 : ℤ × List String :=
        match sd.rsi with
        | some rsi =>
          if pyStartswith setup_type "bullish" ∧ rsi > 80 then
            (30, ["RSI overbought"])
          else if pyStartswith setup_type "bearish" ∧ rsi < 20 then
            (30, ["RSI oversold"])
          else (0, [])
        | none => (0, [])
      let p2 : ℤ × List String :=
        if pyStartswith setup_type "bullish" ∧ prev.stoch_rsi > latest.stoch_rsi ∧
            prev.stoch_rsi > 80 then
          (25, ["Stochastic RSI reversing from overbought"])
        else if pyStartswith setup_type "bearish" ∧ prev.stoch_rsi < latest.stoch_rsi ∧
            prev.stoch_rsi < 20 then
          (25, ["Stochastic RSI reversing from oversold"])
        else (0, [])
      let p3 : ℤ × List String :=
        if pyStartswith setup_type "bullish" then
          match sd.resistance with
          | some (r :: _) =>
            if |latest.close - r| / r < 1/100 then (25, ["Price reaching resistance"])
            else (0, [])
          | _ => (0, [])
        else if pyStartswith setup_type "bearish" then
          match sd.support with
          | some (s :: _) =>
            if |latest.close - s| / s < 1/100 then (25, ["Price reaching support"])
            else (0, [])
          | _ => (0, [])
        else (0, [])
      let s4r : Except String (ℤ × List String) :=
        if pyStartswith setup_type "bullish" then
          match sd.ema10, sd.ema20 with
          | some e10, some _ =>
            if latest.close < e10 then Except.error ("KeyError: " ++ "ema10")
            else Except.ok ((0 : ℤ), ([] : List String))
          | _, _ => Except.ok (0, [])
        else if pyStartswith setup_type "bearish" then
          match sd.ema10, sd.ema20 with
          | some e10, some _ =>
            if latest.close > e10 then Except.error ("KeyError: " ++ "ema10")
            else Except.ok ((0 : ℤ), ([] : List String))
          | _, _ => Except.ok (0, [])
        else Except.ok (0, [])
      match s4r with
      | Except.error e => Except.error e
      | Except.ok p4 =>
        let strength := p1.1 + p2.1 + p3.1 + p4.1
        Except.ok (decide (strength > 50), strength, p1.2 ++ p2.2 ++ p3.2 ++ p4.2)
    | _, _ => Except.ok (false, 0, ["Insufficient data"])

/-- An `entry` or `exit` record of the signals dict. -/
structure SignalPart where
  signal : Bool
  strength : ℤ
  reasons : List String
deriving DecidableEq

/-- Output of `ConfirmationModule.get_signals`. -/
structure SignalsResult where
  entry : SignalPart
  exitSignal : SignalPart
  success : Bool
deriving DecidableEq

/-- `ConfirmationModule.get_signals`: on fetch failure, the no-signal dict;
otherwise the entry check dispatched on
`setup_results.get('setup', 'unknown')` by `startswith`, with the `else`
branch `(False, 0, ["Unknown setup type"])`, plus the exit check. -/
def getSignals (data : Option (List ConfRow)) (sd : SetupDict) :
    Except String SignalsResult :=
  match data with
  | none =>
    Except.ok
      { entry := ⟨false, 0, ["Failed to fetch data"]⟩,
        exitSignal := ⟨false, 0, ["Failed to fetch data"]⟩, success := false }
  | some rows =>
    let setup_type := sd.setup.getD "unknown"
    let e :=
      if pyStartswith setup_type "bullish" then checkBullishEntry rows sd
      else if pyStartswith setup_type "bearish" then checkBearishEntry rows sd
      else if pyStartswith setup_type "neutral" then checkNeutralEntry rows sd
      else (false, 0, ["Unknown setup type"])
    match checkExitSignals setup_type rows sd with
    | Except.error err => Except.error err
    | Except.ok x =>
      Except.ok
        { entry := ⟨e.1, e.2.1, e.2.2⟩, exitSignal := ⟨x.1, x.2.1, x.2.2⟩,
          success := true }

/-! ### Concrete inputs used by witness theorems -/

/-- A strongly bullish market context. -/
def ctxA : MarketContext := ⟨"bullish", 1/2, 60, 70, some 600, some 1⟩

/-- Levels with one support at 100 and the price on it. -/
def lvlA : KeyLevels := ⟨[100], [], none, [], some 100, true⟩

/-- Reasons the bullish evaluation emits on `ctxA`/`lvlA`. -/
def reasonsBullishA : List String :=
  ["Strong bullish trend (EMA alignment)", "Bullish sentiment (PCR)",
   "Bullish momentum (RSI)", "Bullish Stochastic RSI", "Price near support",
   "Positive GEX indicating bullish stability"]

/-- Reasons the neutral evaluation emits on `ctxA`/`lvlA`. -/
def reasonsNeutralA : List String := ["Neutral momentum (RSI)", "Neutral Stochastic RSI"]

/-- The setup result on `ctxA`/`lvlA`. -/
def resultA : SetupResult :=
  { setup := "bullish", confidence := 100, reasons := reasonsBullishA,
    all_setups := ((true, 100, reasonsBullishA), (false, 0, []),
      (false, 25, reasonsNeutralA)) }

/-- A context on which no candidate clears the 60 validity bar. -/
def ctxB : MarketContext := ⟨"neutral", 2, 90, 50, some 0, none⟩

/-- The failure levels dict (as returned for an empty options surface). -/
def lvlFailB : KeyLevels := ⟨[], [], none, [], none, false⟩

/-- Reasons of the bullish evaluation on `ctxB`/`lvlFailB`. -/
def reasonsBullishB : List String := ["Neutral trend", "Neutral Stochastic RSI"]

/-- Reasons of the bearish evaluation on `ctxB`/`lvlFailB`. -/
def reasonsBearishB : List String :=
  ["Neutral trend", "Bearish sentiment (PCR)", "Neutral Stochastic RSI"]

/-- Reasons of the neutral evaluation on `ctxB`/`lvlFailB`. -/
def reasonsNeutralB : List String :=
  ["Neutral trend (flat EMAs)", "Low implied volatility", "Neutral Stochastic RSI",
   "GEX near zero indicating potential breakout"]

/-- The setup result on `ctxB`/`lvlFailB`: a weak neutral call. -/
def resultB : SetupResult :=
  { setup := "weak_neutral", confidence := 225/4, reasons := reasonsNeutralB,
    all_setups := ((false, 100/7, reasonsBullishB), (false, 200/7, reasonsBearishB),
      (false, 225/4, reasonsNeutralB)) }

/-- Five periods of confirmation data; only the last row has a volume
spike (ratio 2), the stochastic values are flat at 70. -/
def rowsC : List ConfRow :=
  [⟨1, 1, 70, 50, 1⟩, ⟨1, 1, 70, 50, 1⟩, ⟨1, 1, 70, 50, 1⟩, ⟨1, 1, 70, 50, 1⟩,
   ⟨1, 1, 70, 50, 2⟩]

/-- A setup-results dict labelled `weak_bullish` with no other keys the
confirmation module reads. -/
def sdC : SetupDict :=
  ⟨some "weak_bullish", some 50, none, none, none, none, none, none, none,
   none, none, none⟩

/-- What `get_signals` actually returns on `rowsC`/`sdC`: the unknown-setup
entry result. -/
def resC : SignalsResult :=
  ⟨⟨false, 0, ["Unknown setup type"]⟩, ⟨false, 0, []⟩, true⟩

/-! ## Theorems

### Order facts about the `(is_valid, confidence)` sort key -/

lemma keyLtB_iff (a b : Bool × ℚ) :
    keyLtB a b = true ↔ (a.1 = false ∧ b.1 = true) ∨ (a.1 = b.1 ∧ a.2 < b.2) := by
  obtain ⟨a1, a2⟩ := a
  obtain ⟨b1, b2⟩ := b
  cases a1 <;> cases b1 <;> simp [keyLtB]

lemma keyLtB_irrefl (a : Bool × ℚ) : keyLtB a a = false := by
  obtain ⟨a1, a2⟩ := a
  cases a1 <;> simp [keyLtB]

lemma keyLtB_asymm {a b : Bool × ℚ} (h : keyLtB a b = true) : keyLtB b a = false := by
  obtain ⟨a1, a2⟩ := a
  obtain ⟨b1, b2⟩ := b
  cases a1 <;> cases b1 <;> simp [keyLtB] at h ⊢ <;> linarith

lemma keyLtB_trans {a b c : Bool × ℚ} (h1 : keyLtB a b = true)
    (h2 : keyLtB b c = true) : keyLtB a c = true := by
  obtain ⟨a1, a2⟩ := a
  obtain ⟨b1, b2⟩ := b
  obtain ⟨c1, c2⟩ := c
  cases a1 <;> cases b1 <;> cases c1 <;> simp [keyLtB] at h1 h2 ⊢ <;> linarith

lemma keyLtB_lt_of_lt_of_nlt {a b c : Bool × ℚ} (h1 : keyLtB a b = true)
    (h2 : keyLtB c b = false) : keyLtB a c = true := by
  obtain ⟨a1, a2⟩ := a
  obtain ⟨b1, b2⟩ := b
  obtain ⟨c1, c2⟩ := c
  cases a1 <;> cases b1 <;> cases c1 <;> simp [keyLtB, not_lt] at h1 h2 ⊢ <;> linarith

lemma keyLtB_of_false_true {a b : Bool × ℚ} (ha : a.1 = false) (hb : b.1 = true) :
    keyLtB a b = true :=
  (keyLtB_iff a b).mpr (Or.inl ⟨ha, hb⟩)

lemma fst_false_of_keyLtB {a b : Bool × ℚ} (h : keyLtB a b = true)
    (hb : b.1 = false) : a.1 = false := by
  obtain ⟨a1, a2⟩ := a
  obtain ⟨b1, b2⟩ := b
  cases a1 <;> cases b1 <;> simp_all [keyLtB]

lemma ne_of_keyLtB {a b : Bool × ℚ} (h : keyLtB a b = true) : a ≠ b := by
  intro he
  rw [he, keyLtB_irrefl] at h
  exact Bool.noConfusion h

/-- Head of the stable descending sort of the three candidates: it is one of
them, no candidate beats it on `(is_valid, confidence)`, it is the first of
the list whose key attains the maximum (ties go to the earlier candidate),
and it is valid whenever any candidate is. -/
lemma sortDesc_three (B S N : SetupCand) :
    ∃ w : SetupCand,
      (sortDesc [B, S, N]).headD B = w ∧
      w ∈ [B, S, N] ∧
      (∀ x ∈ [B, S, N], keyLtB (candKey w) (candKey x) = false) ∧
      [B, S, N].find? (fun x => decide (candKey x = candKey w)) = some w ∧
      ((B.valid || S.valid || N.valid) = true → w.valid = true) := by
  have e0 : sortDesc [B, S, N] = insertDesc B (insertDesc S [N]) := rfl
  cases hSN : keyLtB (candKey S) (candKey N) with
  | true =>
    have e1 : insertDesc S [N] = [N, S] := by simp [insertDesc, hSN]
    cases hBN : keyLtB (candKey B) (candKey N) with
    | true =>
      have e2 : sortDesc [B, S, N] = N :: insertDesc B [S] := by
        rw [e0, e1]
        simp [insertDesc, hBN]
      refine ⟨N, by rw [e2]; rfl, by simp, ?_, ?_, ?_⟩
      · intro x hx
        simp only [List.mem_cons, List.not_mem_nil, or_false] at hx
        rcases hx with rfl | rfl | rfl
        · exact keyLtB_asymm hBN
        · exact keyLtB_asymm hSN
        · exact keyLtB_irrefl _
      · simp [List.find?, ne_of_keyLtB hBN, ne_of_keyLtB hSN]
      · intro hor
        cases hNv : N.valid with
        | true => rfl
        | false =>
          exfalso
          have hB0 : B.valid = false := fst_false_of_keyLtB hBN hNv
          have hS0 : S.valid = false := fst_false_of_keyLtB hSN hNv
          rw [hB0, hS0, hNv] at hor
          simp at hor
    | false =>
      have e2 : sortDesc [B, S, N] = B :: [N, S] := by
        rw [e0, e1]
        simp [insertDesc, hBN]
      have hBS : keyLtB (candKey B) (candKey S) = false := by
        cases hbs : keyLtB (candKey B) (candKey S) with
        | false => rfl
        | true => exact Bool.noConfusion (hBN.symm.trans (keyLtB_trans hbs hSN))
      refine ⟨B, by rw [e2]; rfl, by simp, ?_, ?_, ?_⟩
      · intro x hx
        simp only [List.mem_cons, List.not_mem_nil, or_false] at hx
        rcases hx with rfl | rfl | rfl
        · exact keyLtB_irrefl _
        · exact hBS
        · exact hBN
      · simp [List.find?]
      · intro hor
        cases hBv : B.valid with
        | true => rfl
        | false =>
          exfalso
          have hS0 : S.valid = false := by
            cases hSv : S.valid with
            | false => rfl
            | true =>
              exact Bool.noConfusion
                (hBN.symm.trans (keyLtB_trans (keyLtB_of_false_true hBv hSv) hSN))
          have hN0 : N.valid = false := by
            cases hNv : N.valid with
            | false => rfl
            | true => exact Bool.noConfusion (hBN.symm.trans (keyLtB_of_false_true hBv hNv))
          rw [hBv, hS0, hN0] at hor
          simp at hor
  | false =>
    have e1 : insertDesc S [N] = [S, N] := by simp [insertDesc, hSN]
    cases hBS : keyLtB (candKey B) (candKey S) with
    | true =>
      have e2 : sortDesc [B, S, N] = S :: insertDesc B [N] := by
        rw [e0, e1]
        simp [insertDesc, hBS]
      refine ⟨S, by rw [e2]; rfl, by simp, ?_, ?_, ?_⟩
      · intro x hx
        simp only [List.mem_cons, List.not_mem_nil, or_false] at hx
        rcases hx with rfl | rfl | rfl
        · exact keyLtB_asymm hBS
        · exact keyLtB_irrefl _
        · exact hSN
      · simp [List.find?, ne_of_keyLtB hBS]
      · intro hor
        cases hSv : S.valid with
        | true => rfl
        | false =>
          exfalso
          have hB0 : B.valid = false := fst_false_of_keyLtB hBS hSv
          have hN0 : N.valid = false := by
            cases hNv : N.valid with
            | false => rfl
            | true => exact Bool.noConfusion (hSN.symm.trans (keyLtB_of_false_true hSv hNv))
          rw [hB0, hSv, hN0] at hor
          simp at hor
    | false =>
      have e2 : sortDesc [B, S, N] = B :: [S, N] := by
        rw [e0, e1]
        simp [insertDesc, hBS]
      have hBN : keyLtB (candKey B) (candKey N) = false := by
        cases hbn : keyLtB (candKey B) (candKey N) with
        | false => rfl
        | true => exact Bool.noConfusion (hBS.symm.trans (keyLtB_lt_of_lt_of_nlt hbn hSN))
      refine ⟨B, by rw [e2]; rfl, by simp, ?_, ?_, ?_⟩
      · intro x hx
        simp only [List.mem_cons, List.not_mem_nil, or_false] at hx
        rcases hx with rfl | rfl | rfl
        · exact keyLtB_irrefl _
        · exact hBS
        · exact hBN
      · simp [List.find?]
      · intro hor
        cases hBv : B.valid with
        | true => rfl
        | false =>
          exfalso
          have hS0 : S.valid = false := by
            cases hSv : S.valid with
            | false => rfl
            | true => exact Bool.noConfusion (hBS.symm.trans (keyLtB_of_false_true hBv hSv))
          have hN0 : N.valid = false := by
            cases hNv : N.valid with
            | false => rfl
            | true => exact Bool.noConfusion (hBN.symm.trans (keyLtB_of_false_true hBv hNv))
          rw [hBv, hS0, hN0] at hor
          simp at hor

/-- C1: `determine_setup` evaluates the three candidates (bullish, bearish,
neutral), sorts them by `(is_valid, confidence)` descending and returns the
top candidate: the winner `w` is one of the three, no candidate exceeds its
key, a valid candidate always wins over invalid ones regardless of
confidence, ties on both key components go to the earlier candidate in
input order (bullish, bearish, neutral), and the result carries the
winner's confidence and reasons with its label (`weak_`-prefixed exactly
when invalid). -/
theorem determine_setup_selects_first_max
    (c : MarketContext) (l : KeyLevels)
    (bv sv nv : Bool) (bc sc nc : ℚ) (br sr nr : List String) (r : SetupResult)
    (hb : evaluateBullishSetup c l = Except.ok (bv, bc, br))
    (hs : evaluateBearishSetup c l = Except.ok (sv, sc, sr))
    (hn : evaluateNeutralSetup c l = Except.ok (nv, nc, nr))
    (hr : determineSetup c l = Except.ok r) :
    ∃ w : SetupCand,
      w ∈ [(⟨"bullish", bc, bv, br⟩ : SetupCand), ⟨"bearish", sc, sv, sr⟩,
        ⟨"neutral", nc, nv, nr⟩] ∧
      (∀ x ∈ [(⟨"bullish", bc, bv, br⟩ : SetupCand), ⟨"bearish", sc, sv, sr⟩,
        ⟨"neutral", nc, nv, nr⟩], keyLtB (candKey w) (candKey x) = false) ∧
      [(⟨"bullish", bc, bv, br⟩ : SetupCand), ⟨"bearish", sc, sv, sr⟩,
        ⟨"neutral", nc, nv, nr⟩].find? (fun x => decide (candKey x = candKey w)) =
        some w ∧
      ((bv || sv || nv) = true → w.valid = true) ∧
      r.setup = (if w.valid then w.label else "weak_" ++ w.label) ∧
      r.confidence = w.confidence ∧
      r.reasons = w.reasons := by
  obtain ⟨w, hw0, hwmem, hwmax, hwfind, hwvalid⟩ :=
    sortDesc_three ⟨"bullish", bc, bv, br⟩ ⟨"bearish", sc, sv, sr⟩ ⟨"neutral", nc, nv, nr⟩
  have hhead : determineSetup c l =
      Except.ok
        { setup := if w.valid then w.label else "weak_" ++ w.label,
          confidence := w.confidence, reasons := w.reasons,
          all_setups := ((bv, bc, br), (sv, sc, sr), (nv, nc, nr)) } := by
    unfold determineSetup
    rw [hb, hs, hn]
    dsimp only
    rw [hw0]
  rw [hhead] at hr
  injection hr with hre
  refine ⟨w, hwmem, hwmax, hwfind, hwvalid, ?_, ?_, ?_⟩
  · rw [← hre]
  · rw [← hre]
  · rw [← hre]

/-- Witness for C1 at the concrete input `ctxA`/`lvlA`: the valid bullish
candidate (confidence 100) wins. -/
theorem determine_setup_selects_first_max_witness :
    ∃ w : SetupCand,
      w ∈ [(⟨"bullish", 100, true, reasonsBullishA⟩ : SetupCand),
        ⟨"bearish", 0, false, []⟩, ⟨"neutral", 25, false, reasonsNeutralA⟩] ∧
      (∀ x ∈ [(⟨"bullish", 100, true, reasonsBullishA⟩ : SetupCand),
        ⟨"bearish", 0, false, []⟩, ⟨"neutral", 25, false, reasonsNeutralA⟩],
        keyLtB (candKey w) (candKey x) = false) ∧
      [(⟨"bullish", 100, true, reasonsBullishA⟩ : SetupCand),
        ⟨"bearish", 0, false, []⟩, ⟨"neutral", 25, false, reasonsNeutralA⟩].find?
          (fun x => decide (candKey x = candKey w)) = some w ∧
      ((true || false || false) = true → w.valid = true) ∧
      resultA.setup = (if w.valid then w.label else "weak_" ++ w.label) ∧
      resultA.confidence = w.confidence ∧
      resultA.reasons = w.reasons := by
  have h1 : evaluateBullishSetup ctxA lvlA =
      Except.ok (true, 100, reasonsBullishA) := by
    simp [ctxA, lvlA, reasonsBullishA, evaluateBullishSetup, bullishCounts,
      bullishSupportPts, bullishTrendPts, bullishPcrPts, bullishRsiPts,
      bullishStochPts, bullishGexPts, setupScore]
    norm_num
  have h2 : evaluateBearishSetup ctxA lvlA = Except.ok (false, 0, []) := by
    simp [ctxA, lvlA, evaluateBearishSetup, bearishCounts,
      bearishResistancePts, bearishTrendPts, bearishPcrPts, bearishRsiPts,
      bearishStochPts, bearishGexPts, setupScore]
    norm_num
  have h3 : evaluateNeutralSetup ctxA lvlA =
      Except.ok (false, 25, reasonsNeutralA) := by
    simp [ctxA, lvlA, reasonsNeutralA, evaluateNeutralSetup, neutralCounts,
      neutralMaxPainPts, neutralTrendPts, neutralPcrPts, neutralIvPts,
      neutralRsiPts, neutralStochPts, neutralGexPts, setupScore]
    norm_num
  have hsort : sortDesc [(⟨"bullish", 100, true, reasonsBullishA⟩ : SetupCand),
      ⟨"bearish", 0, false, []⟩, ⟨"neutral", 25, false, reasonsNeutralA⟩] =
      [⟨"bullish", 100, true, reasonsBullishA⟩, ⟨"neutral", 25, false, reasonsNeutralA⟩,
        ⟨"bearish", 0, false, []⟩] := by
    norm_num [sortDesc, insertDesc, keyLtB, candKey]
  have h4 : determineSetup ctxA lvlA = Except.ok resultA := by
    unfold determineSetup
    rw [h1, h2, h3]
    dsimp only
    rw [hsort]
    rfl
  exact determine_setup_selects_first_max ctxA lvlA true false false 100 0 25
    reasonsBullishA [] reasonsNeutralA resultA h1 h2 h3 h4

/-- The `is_valid` flag returned by `_evaluate_bullish_setup` is exactly
`confidence > 60`. -/
lemma evaluateBullishSetup_valid (c : MarketContext) (l : KeyLevels)
    {t : Bool × ℚ × List String} (h : evaluateBullishSetup c l = Except.ok t) :
    t.1 = decide (t.2.1 > 60) := by
  unfold evaluateBullishSetup at h
  cases hc : bullishCounts c l with
  | error e => rw [hc] at h; exact Except.noConfusion h
  | ok u =>
    rw [hc] at h
    obtain ⟨p, m, rs⟩ := u
    injection h with he
    rw [← he]
    rfl

/-- The `is_valid` flag returned by `_evaluate_bearish_setup` is exactly
`confidence > 60`. -/
lemma evaluateBearishSetup_valid (c : MarketContext) (l : KeyLevels)
    {t : Bool × ℚ × List String} (h : evaluateBearishSetup c l = Except.ok t) :
    t.1 = decide (t.2.1 > 60) := by
  unfold evaluateBearishSetup at h
  cases hc : bearishCounts c l with
  | error e => rw [hc] at h; exact Except.noConfusion h
  | ok u =>
    rw [hc] at h
    obtain ⟨p, m, rs⟩ := u
    injection h with he
    rw [← he]
    rfl

/-- The `is_valid` flag returned by `_evaluate_neutral_setup` is exactly
`confidence > 60`. -/
lemma evaluateNeutralSetup_valid (c : MarketContext) (l : KeyLevels)
    {t : Bool × ℚ × List String} (h : evaluateNeutralSetup c l = Except.ok t) :
    t.1 = decide (t.2.1 > 60) := by
  unfold evaluateNeutralSetup at h
  cases hc : neutralCounts c l with
  | error e => rw [hc] at h; exact Except.noConfusion h
  | ok u =>
    rw [hc] at h
    obtain ⟨p, m, rs⟩ := u
    injection h with he
    rw [← he]
    rfl

/-- C2: when no candidate is valid (all three confidences at most 60),
`determine_setup` returns the highest-`(validity, confidence)` candidate's
label prefixed with `weak_`, keeping that candidate's numeric confidence and
its reasons list unchanged; and whenever the winning candidate is valid, no
prefix is added. -/
theorem weak_label_preserves_confidence
    (c : MarketContext) (l : KeyLevels)
    (bv sv nv : Bool) (bc sc nc : ℚ) (br sr nr : List String) (r : SetupResult)
    (hb : evaluateBullishSetup c l = Except.ok (bv, bc, br))
    (hs : evaluateBearishSetup c l = Except.ok (sv, sc, sr))
    (hn : evaluateNeutralSetup c l = Except.ok (nv, nc, nr))
    (hr : determineSetup c l = Except.ok r) :
    ((bc ≤ 60 ∧ sc ≤ 60 ∧ nc ≤ 60) →
      ∃ w : SetupCand,
        w ∈ [(⟨"bullish", bc, bv, br⟩ : SetupCand), ⟨"bearish", sc, sv, sr⟩,
          ⟨"neutral", nc, nv, nr⟩] ∧
        (∀ x ∈ [(⟨"bullish", bc, bv, br⟩ : SetupCand), ⟨"bearish", sc, sv, sr⟩,
          ⟨"neutral", nc, nv, nr⟩], keyLtB (candKey w) (candKey x) = false) ∧
        [(⟨"bullish", bc, bv, br⟩ : SetupCand), ⟨"bearish", sc, sv, sr⟩,
          ⟨"neutral", nc, nv, nr⟩].find? (fun x => decide (candKey x = candKey w)) =
          some w ∧
        r.setup = "weak_" ++ w.label ∧
        r.confidence = w.confidence ∧
        r.reasons = w.reasons) ∧
    (∀ w : SetupCand,
      (sortDesc [(⟨"bullish", bc, bv, br⟩ : SetupCand), ⟨"bearish", sc, sv, sr⟩,
        ⟨"neutral", nc, nv, nr⟩]).headD ⟨"bullish", bc, bv, br⟩ = w →
      w.valid = true → r.setup = w.label) := by
  obtain ⟨w, hw0, hwmem, hwmax, hwfind, hwvalid⟩ :=
    sortDesc_three ⟨"bullish", bc, bv, br⟩ ⟨"bearish", sc, sv, sr⟩ ⟨"neutral", nc, nv, nr⟩
  have hhead : determineSetup c l =
      Except.ok
        { setup := if w.valid then w.label else "weak_" ++ w.label,
          confidence := w.confidence, reasons := w.reasons,
          all_setups := ((bv, bc, br), (sv, sc, sr), (nv, nc, nr)) } := by
    unfold determineSetup
    rw [hb, hs, hn]
    dsimp only
    rw [hw0]
  rw [hhead] at hr
  injection hr with hre
  constructor
  · rintro ⟨h60b, h60s, h60n⟩
    have hbv : bv = false := by
      have hv := evaluateBullishSetup_valid c l hb
      simp only [] at hv
      rw [hv]
      exact decide_eq_false (not_lt.mpr h60b)
    have hsv : sv = false := by
      have hv := evaluateBearishSetup_valid c l hs
      simp only [] at hv
      rw [hv]
      exact decide_eq_false (not_lt.mpr h60s)
    have hnv : nv = false := by
      have hv := evaluateNeutralSetup_valid c l hn
      simp only [] at hv
      rw [hv]
      exact decide_eq_false (not_lt.mpr h60n)
    have hwv : w.valid = false := by
      have hm := hwmem
      simp only [List.mem_cons, List.not_mem_nil, or_false] at hm
      rcases hm with rfl | rfl | rfl
      · exact hbv
      · exact hsv
      · exact hnv
    refine ⟨w, hwmem, hwmax, hwfind, ?_, ?_, ?_⟩
    · rw [← hre]
      simp [hwv]
    · rw [← hre]
    · rw [← hre]
  · intro w' hw' hv
    have hww : w' = w := hw'.symm.trans hw0
    subst hww
    rw [← hre]
    simp [hv]

/-- Witness for C2 at `ctxB`/`lvlFailB`: all three candidates fall below 60,
and the output is `weak_neutral` with the neutral candidate's confidence
225/4 and reasons preserved. -/
theorem weak_label_preserves_confidence_witness :
    (((100 : ℚ)/7 ≤ 60 ∧ (200 : ℚ)/7 ≤ 60 ∧ (225 : ℚ)/4 ≤ 60) →
      ∃ w : SetupCand,
        w ∈ [(⟨"bullish", 100/7, false, reasonsBullishB⟩ : SetupCand),
          ⟨"bearish", 200/7, false, reasonsBearishB⟩,
          ⟨"neutral", 225/4, false, reasonsNeutralB⟩] ∧
        (∀ x ∈ [(⟨"bullish", 100/7, false, reasonsBullishB⟩ : SetupCand),
          ⟨"bearish", 200/7, false, reasonsBearishB⟩,
          ⟨"neutral", 225/4, false, reasonsNeutralB⟩],
          keyLtB (candKey w) (candKey x) = false) ∧
        [(⟨"bullish", 100/7, false, reasonsBullishB⟩ : SetupCand),
          ⟨"bearish", 200/7, false, reasonsBearishB⟩,
          ⟨"neutral", 225/4, false, reasonsNeutralB⟩].find?
            (fun x => decide (candKey x = candKey w)) = some w ∧
        resultB.setup = "weak_" ++ w.label ∧
        resultB.confidence = w.confidence ∧
        resultB.reasons = w.reasons) ∧
    (∀ w : SetupCand,
      (sortDesc [(⟨"bullish", 100/7, false, reasonsBullishB⟩ : SetupCand),
        ⟨"bearish", 200/7, false, reasonsBearishB⟩,
        ⟨"neutral", 225/4, false, reasonsNeutralB⟩]).headD
          ⟨"bullish", 100/7, false, reasonsBullishB⟩ = w →
      w.valid = true → resultB.setup = w.label) := by
  have h1 : evaluateBullishSetup ctxB lvlFailB =
      Except.ok (false, 100/7, reasonsBullishB) := by
    simp [ctxB, lvlFailB, reasonsBullishB, evaluateBullishSetup, bullishCounts,
      bullishSupportPts, bullishTrendPts, bullishPcrPts, bullishRsiPts,
      bullishStochPts, bullishGexPts, setupScore]
    norm_num
  have h2 : evaluateBearishSetup ctxB lvlFailB =
      Except.ok (false, 200/7, reasonsBearishB) := by
    simp [ctxB, lvlFailB, reasonsBearishB, evaluateBearishSetup, bearishCounts,
      bearishResistancePts, bearishTrendPts, bearishPcrPts, bearishRsiPts,
      bearishStochPts, bearishGexPts, setupScore]
    norm_num
  have h3 : evaluateNeutralSetup ctxB lvlFailB =
      Except.ok (false, 225/4, reasonsNeutralB) := by
    simp [ctxB, lvlFailB, reasonsNeutralB, evaluateNeutralSetup, neutralCounts,
      neutralMaxPainPts, neutralTrendPts, neutralPcrPts, neutralIvPts,
      neutralRsiPts, neutralStochPts, neutralGexPts, setupScore]
    norm_num
  have hsort : sortDesc [(⟨"bullish", 100/7, false, reasonsBullishB⟩ : SetupCand),
      ⟨"bearish", 200/7, false, reasonsBearishB⟩,
      ⟨"neutral", 225/4, false, reasonsNeutralB⟩] =
      [⟨"neutral", 225/4, false, reasonsNeutralB⟩,
        ⟨"bearish", 200/7, false, reasonsBearishB⟩,
        ⟨"bullish", 100/7, false, reasonsBullishB⟩] := by
    norm_num [sortDesc, insertDesc, keyLtB, candKey]
  have h4 : determineSetup ctxB lvlFailB = Except.ok resultB := by
    unfold determineSetup
    rw [h1, h2, h3]
    dsimp only
    rw [hsort]
    rfl
  exact weak_label_preserves_confidence ctxB lvlFailB false false false
    (100/7) (200/7) (225/4) reasonsBullishB reasonsBearishB reasonsNeutralB
    resultB h1 h2 h3 h4

/-! ### Per-criterion point bounds -/

lemma bullishTrendPts_bounds (c : MarketContext) :
    0 ≤ (bullishTrendPts c).1 ∧ (bullishTrendPts c).1 ≤ 3 := by
  unfold bullishTrendPts
  split_ifs <;> norm_num

lemma bullishPcrPts_bounds (c : MarketContext) :
    0 ≤ (bullishPcrPts c).1 ∧ (bullishPcrPts c).1 ≤ 2 := by
  unfold bullishPcrPts
  split_ifs <;> norm_num

lemma bullishRsiPts_bounds (c : MarketContext) :
    0 ≤ (bullishRsiPts c).1 ∧ (bullishRsiPts c).1 ≤ 2 := by
  unfold bullishRsiPts
  split_ifs <;> norm_num

lemma bullishStochPts_bounds (c : MarketContext) :
    0 ≤ (bullishStochPts c).1 ∧ (bullishStochPts c).1 ≤ 2 := by
  unfold bullishStochPts
  split_ifs <;> norm_num

lemma bullishGexPts_bounds (c : MarketContext) :
    0 ≤ (bullishGexPts c).1 ∧ (bullishGexPts c).1 ≤ 2 := by
  unfold bullishGexPts
  split_ifs <;> norm_num

lemma bullishSupportPts_bounds (l : KeyLevels) {q : ℚ} {rs : List String}
    (h : bullishSupportPts l = Except.ok (q, rs)) : 0 ≤ q ∧ q ≤ 3 := by
  unfold bullishSupportPts at h
  cases hsup : l.support with
  | nil =>
    rw [hsup] at h
    injection h with he
    injection he with he1 he2
    subst he1
    norm_num
  | cons s rest =>
    rw [hsup] at h
    cases hcp : l.current_price with
    | none => rw [hcp] at h; exact Except.noConfusion h
    | some cp =>
      rw [hcp] at h
      dsimp only at h
      split_ifs at h <;> (injection h with he; injection he with he1 he2; subst he1) <;>
        norm_num

lemma bearishTrendPts_bounds (c : MarketContext) :
    0 ≤ (bearishTrendPts c).1 ∧ (bearishTrendPts c).1 ≤ 3 := by
  unfold bearishTrendPts
  split_ifs <;> norm_num

lemma bearishPcrPts_bounds (c : MarketContext) :
    0 ≤ (bearishPcrPts c).1 ∧ (bearishPcrPts c).1 ≤ 2 := by
  unfold bearishPcrPts
  split_ifs <;> norm_num

lemma bearishRsiPts_bounds (c : MarketContext) :
    0 ≤ (bearishRsiPts c).1 ∧ (bearishRsiPts c).1 ≤ 2 := by
  unfold bearishRsiPts
  split_ifs <;> norm_num

lemma bearishStochPts_bounds (c : MarketContext) :
    0 ≤ (bearishStochPts c).1 ∧ (bearishStochPts c).1 ≤ 2 := by
  unfold bearishStochPts
  split_ifs <;> norm_num

lemma bearishGexPts_bounds (c : MarketContext) :
    0 ≤ (bearishGexPts c).1 ∧ (bearishGexPts c).1 ≤ 2 := by
  unfold bearishGexPts
  split_ifs <;> norm_num

lemma bearishResistancePts_bounds (l : KeyLevels) {q : ℚ} {rs : List String}
    (h : bearishResistancePts l = Except.ok (q, rs)) : 0 ≤ q ∧ q ≤ 3 := by
  unfold bearishResistancePts at h
  cases hres : l.resistance with
  | nil =>
    rw [hres] at h
    injection h with he
    injection he with he1 he2
    subst he1
    norm_num
  | cons s rest =>
    rw [hres] at h
    cases hcp : l.current_price with
    | none => rw [hcp] at h; exact Except.noConfusion h
    | some cp =>
      rw [hcp] at h
      dsimp only at h
      split_ifs at h <;> (injection h with he; injection he with he1 he2; subst he1) <;>
        norm_num

lemma neutralTrendPts_bounds (c : MarketContext) :
    0 ≤ (neutralTrendPts c).1 ∧ (neutralTrendPts c).1 ≤ 3 := by
  unfold neutralTrendPts
  split_ifs <;> norm_num

lemma neutralPcrPts_bounds (c : MarketContext) :
    0 ≤ (neutralPcrPts c).1 ∧ (neutralPcrPts c).1 ≤ 2 := by
  unfold neutralPcrPts
  split_ifs <;> norm_num

lemma neutralIvPts_bounds (c : MarketContext) :
    0 ≤ (neutralIvPts c).1 ∧ (neutralIvPts c).1 ≤ 2 := by
  unfold neutralIvPts
  split_ifs <;> norm_num

lemma neutralRsiPts_bounds (c : MarketContext) :
    0 ≤ (neutralRsiPts c).1 ∧ (neutralRsiPts c).1 ≤ 2 := by
  unfold neutralRsiPts
  split_ifs <;> norm_num

lemma neutralStochPts_bounds (c : MarketContext) :
    0 ≤ (neutralStochPts c).1 ∧ (neutralStochPts c).1 ≤ 2 := by
  unfold neutralStochPts
  split_ifs <;> norm_num

lemma neutralGexPts_bounds (c : MarketContext) :
    0 ≤ (neutralGexPts c).1 ∧ (neutralGexPts c).1 ≤ 2 := by
  unfold neutralGexPts
  split_ifs <;> norm_num

lemma neutralMaxPainPts_bounds (l : KeyLevels) {q : ℚ} {rs : List String}
    (h : neutralMaxPainPts l = Except.ok (q, rs)) : 0 ≤ q ∧ q ≤ 3 := by
  unfold neutralMaxPainPts at h
  cases hmp : l.max_pain with
  | none =>
    rw [hmp] at h
    injection h with he
    injection he with he1 he2
    subst he1
    norm_num
  | some mp =>
    rw [hmp] at h
    dsimp only at h
    split_ifs at h
    · injection h with he
      injection he with he1 he2
      subst he1
      norm_num
    · cases hcp : l.current_price with
      | none => rw [hcp] at h; exact Except.noConfusion h
      | some cp =>
        rw [hcp] at h
        dsimp only at h
        split_ifs at h <;> (injection h with he; injection he with he1 he2; subst he1) <;>
          norm_num

/-! ### Accumulated count bounds: the denominator is a constant -/

/-- `_evaluate_bullish_setup` accumulates `max_points` unconditionally:
the denominator is always 14, and the earned points lie in `[0, 14]`. -/
lemma bullishCounts_bounds (c : MarketContext) (l : KeyLevels)
    {p m : ℚ} {rs : List String} (h : bullishCounts c l = Except.ok (p, m, rs)) :
    m = 14 ∧ 0 ≤ p ∧ p ≤ 14 := by
  unfold bullishCounts at h
  cases hsp : bullishSupportPts l with
  | error e => rw [hsp] at h; exact Except.noConfusion h
  | ok sp =>
    obtain ⟨q, qrs⟩ := sp
    rw [hsp] at h
    injection h with he
    injection he with he1 he2
    injection he2 with he2 he3
    subst he1
    subst he2
    obtain ⟨b1, b2⟩ := bullishTrendPts_bounds c
    obtain ⟨c1, c2⟩ := bullishPcrPts_bounds c
    obtain ⟨d1, d2⟩ := bullishRsiPts_bounds c
    obtain ⟨e1, e2⟩ := bullishStochPts_bounds c
    obtain ⟨f1, f2⟩ := bullishGexPts_bounds c
    obtain ⟨g1, g2⟩ := bullishSupportPts_bounds l hsp
    refine ⟨by norm_num, by linarith, by linarith⟩

/-- `_evaluate_bearish_setup`: denominator always 14, points in `[0, 14]`. -/
lemma bearishCounts_bounds (c : MarketContext) (l : KeyLevels)
    {p m : ℚ} {rs : List String} (h : bearishCounts c l = Except.ok (p, m, rs)) :
    m = 14 ∧ 0 ≤ p ∧ p ≤ 14 := by
  unfold bearishCounts at h
  cases hsp : bearishResistancePts l with
  | error e => rw [hsp] at h; exact Except.noConfusion h
  | ok sp =>
    obtain ⟨q, qrs⟩ := sp
    rw [hsp] at h
    injection h with he
    injection he with he1 he2
    injection he2 with he2 he3
    subst he1
    subst he2
    obtain ⟨b1, b2⟩ := bearishTrendPts_bounds c
    obtain ⟨c1, c2⟩ := bearishPcrPts_bounds c
    obtain ⟨d1, d2⟩ := bearishRsiPts_bounds c
    obtain ⟨e1, e2⟩ := bearishStochPts_bounds c
    obtain ⟨f1, f2⟩ := bearishGexPts_bounds c
    obtain ⟨g1, g2⟩ := bearishResistancePts_bounds l hsp
    refine ⟨by norm_num, by linarith, by linarith⟩

/-- `_evaluate_neutral_setup`: denominator always 16, points in `[0, 16]`. -/
lemma neutralCounts_bounds (c : MarketContext) (l : KeyLevels)
    {p m : ℚ} {rs : List String} (h : neutralCounts c l = Except.ok (p, m, rs)) :
    m = 16 ∧ 0 ≤ p ∧ p ≤ 16 := by
  unfold neutralCounts at h
  cases hsp : neutralMaxPainPts l with
  | error e => rw [hsp] at h; exact Except.noConfusion h
  | ok sp =>
    obtain ⟨q, qrs⟩ := sp
    rw [hsp] at h
    injection h with he
    injection he with he1 he2
    injection he2 with he2 he3
    subst he1
    subst he2
    obtain ⟨b1, b2⟩ := neutralTrendPts_bounds c
    obtain ⟨c1, c2⟩ := neutralPcrPts_bounds c
    obtain ⟨d1, d2⟩ := neutralIvPts_bounds c
    obtain ⟨e1, e2⟩ := neutralRsiPts_bounds c
    obtain ⟨f1, f2⟩ := neutralStochPts_bounds c
    obtain ⟨i1, i2⟩ := neutralGexPts_bounds c
    obtain ⟨g1, g2⟩ := neutralMaxPainPts_bounds l hsp
    refine ⟨by norm_num, by linarith, by linarith⟩

/-- The confidence the shared epilogue computes from points `p ∈ [0, m]`
with `m > 0` lies in `[0, 100]`. -/
lemma setupScore_conf_bounds {p m : ℚ} (rs : List String) (hm : 0 < m)
    (hp0 : 0 ≤ p) (hpm : p ≤ m) :
    0 ≤ (setupScore p m rs).2.1 ∧ (setupScore p m rs).2.1 ≤ 100 := by
  unfold setupScore
  rw [if_pos hm]
  constructor
  · exact mul_nonneg (div_nonneg hp0 (le_of_lt hm)) (by norm_num)
  · have h1 : p / m ≤ 1 := (div_le_one hm).mpr hpm
    have h2 : p / m * 100 ≤ 1 * 100 :=
      mul_le_mul_of_nonneg_right h1 (by norm_num)
    linarith

lemma evaluateBullishSetup_conf_bounds (c : MarketContext) (l : KeyLevels)
    {v : Bool} {conf : ℚ} {rs : List String}
    (h : evaluateBullishSetup c l = Except.ok (v, conf, rs)) :
    0 ≤ conf ∧ conf ≤ 100 := by
  unfold evaluateBullishSetup at h
  cases hc : bullishCounts c l with
  | error e => rw [hc] at h; exact Except.noConfusion h
  | ok u =>
    obtain ⟨p, m, rs'⟩ := u
    rw [hc] at h
    injection h with he
    obtain ⟨hm, hp0, hpm⟩ := bullishCounts_bounds c l hc
    subst hm
    have hb := setupScore_conf_bounds (p := p) (m := 14) rs' (by norm_num) hp0 hpm
    have hco : conf = (setupScore p 14 rs').2.1 := by rw [he]
    rw [hco]
    exact hb

lemma evaluateBearishSetup_conf_bounds (c : MarketContext) (l : KeyLevels)
    {v : Bool} {conf : ℚ} {rs : List String}
    (h : evaluateBearishSetup c l = Except.ok (v, conf, rs)) :
    0 ≤ conf ∧ conf ≤ 100 := by
  unfold evaluateBearishSetup at h
  cases hc : bearishCounts c l with
  | error e => rw [hc] at h; exact Except.noConfusion h
  | ok u =>
    obtain ⟨p, m, rs'⟩ := u
    rw [hc] at h
    injection h with he
    obtain ⟨hm, hp0, hpm⟩ := bearishCounts_bounds c l hc
    subst hm
    have hb := setupScore_conf_bounds (p := p) (m := 14) rs' (by norm_num) hp0 hpm
    have hco : conf = (setupScore p 14 rs').2.1 := by rw [he]
    rw [hco]
    exact hb

lemma evaluateNeutralSetup_conf_bounds (c : MarketContext) (l : KeyLevels)
    {v : Bool} {conf : ℚ} {rs : List String}
    (h : evaluateNeutralSetup c l = Except.ok (v, conf, rs)) :
    0 ≤ conf ∧ conf ≤ 100 := by
  unfold evaluateNeutralSetup at h
  cases hc : neutralCounts c l with
  | error e => rw [hc] at h; exact Except.noConfusion h
  | ok u =>
    obtain ⟨p, m, rs'⟩ := u
    rw [hc] at h
    injection h with he
    obtain ⟨hm, hp0, hpm⟩ := neutralCounts_bounds c l hc
    subst hm
    have hb := setupScore_conf_bounds (p := p) (m := 16) rs' (by norm_num) hp0 hpm
    have hco : conf = (setupScore p 16 rs').2.1 := by rw [he]
    rw [hco]
    exact hb

/-- C5: for every input, the confidence each of the three candidate
evaluations returns lies in `[0, 100]`: earned points never exceed the
accumulated maximum and the denominator is positive. -/
theorem confidence_in_unit_range :
    (∀ (c : MarketContext) (l : KeyLevels) (v : Bool) (conf : ℚ) (rs : List String),
      evaluateBullishSetup c l = Except.ok (v, conf, rs) → 0 ≤ conf ∧ conf ≤ 100) ∧
    (∀ (c : MarketContext) (l : KeyLevels) (v : Bool) (conf : ℚ) (rs : List String),
      evaluateBearishSetup c l = Except.ok (v, conf, rs) → 0 ≤ conf ∧ conf ≤ 100) ∧
    (∀ (c : MarketContext) (l : KeyLevels) (v : Bool) (conf : ℚ) (rs : List String),
      evaluateNeutralSetup c l = Except.ok (v, conf, rs) → 0 ≤ conf ∧ conf ≤ 100) :=
  ⟨fun c l _ _ _ h => evaluateBullishSetup_conf_bounds c l h,
   fun c l _ _ _ h => evaluateBearishSetup_conf_bounds c l h,
   fun c l _ _ _ h => evaluateNeutralSetup_conf_bounds c l h⟩

/-- Witness for C5 on `ctxA`/`lvlA`: the three concrete confidences 100, 0
and 25 are inside `[0, 100]`. -/
theorem confidence_in_unit_range_witness :
    (0 ≤ (100 : ℚ) ∧ (100 : ℚ) ≤ 100) ∧ (0 ≤ (0 : ℚ) ∧ (0 : ℚ) ≤ 100) ∧
      (0 ≤ (25 : ℚ) ∧ (25 : ℚ) ≤ 100) := by
  have h1 : evaluateBullishSetup ctxA lvlA =
      Except.ok (true, 100, reasonsBullishA) := by
    simp [ctxA, lvlA, reasonsBullishA, evaluateBullishSetup, bullishCounts,
      bullishSupportPts, bullishTrendPts, bullishPcrPts, bullishRsiPts,
      bullishStochPts, bullishGexPts, setupScore]
    norm_num
  have h2 : evaluateBearishSetup ctxA lvlA = Except.ok (false, 0, []) := by
    simp [ctxA, lvlA, evaluateBearishSetup, bearishCounts,
      bearishResistancePts, bearishTrendPts, bearishPcrPts, bearishRsiPts,
      bearishStochPts, bearishGexPts, setupScore]
    norm_num
  have h3 : evaluateNeutralSetup ctxA lvlA =
      Except.ok (false, 25, reasonsNeutralA) := by
    simp [ctxA, lvlA, reasonsNeutralA, evaluateNeutralSetup, neutralCounts,
      neutralMaxPainPts, neutralTrendPts, neutralPcrPts, neutralIvPts,
      neutralRsiPts, neutralStochPts, neutralGexPts, setupScore]
    norm_num
  exact ⟨confidence_in_unit_range.1 ctxA lvlA true 100 reasonsBullishA h1,
    confidence_in_unit_range.2.1 ctxA lvlA false 0 [] h2,
    confidence_in_unit_range.2.2 ctxA lvlA false 25 reasonsNeutralA h3⟩

/-- C4 counterexample: the bullish `points_possible` never varies with the
input — `max_points` is accumulated unconditionally, so there is no pair of
inputs (with and without support data) whose denominators differ, contrary
to the claim. -/
theorem bullish_points_possible_never_varies :
    ¬ ∃ (c₁ : MarketContext) (l₁ : KeyLevels) (c₂ : MarketContext)
        (l₂ : KeyLevels) (p₁ m₁ p₂ m₂ : ℚ) (r₁ r₂ : List String),
      bullishCounts c₁ l₁ = Except.ok (p₁, m₁, r₁) ∧
      bullishCounts c₂ l₂ = Except.ok (p₂, m₂, r₂) ∧ m₁ ≠ m₂ := by
  rintro ⟨c₁, l₁, c₂, l₂, p₁, m₁, p₂, m₂, r₁, r₂, h1, h2, hne⟩
  have hm1 := (bullishCounts_bounds c₁ l₁ h1).1
  have hm2 := (bullishCounts_bounds c₂ l₂ h2).1
  exact hne (hm1.trans hm2.symm)

/-- C4 (amended): `confidence = 100 × points / points_possible` with a
constant `points_possible` of 14 for the bullish candidate; absent support
data contributes 0 to the earned points (the numerator), not to the
denominator. -/
theorem bullish_confidence_formula :
    (∀ (c : MarketContext) (l : KeyLevels) (v : Bool) (conf : ℚ) (rs : List String),
      evaluateBullishSetup c l = Except.ok (v, conf, rs) →
      ∃ p : ℚ, bullishCounts c l = Except.ok (p, 14, rs) ∧ conf = p / 14 * 100) ∧
    (∀ (res : List ℚ) (mp : Option ℚ) (hg : List ℚ) (cps : Option ℚ) (suc : Bool),
      bullishSupportPts ⟨[], res, mp, hg, cps, suc⟩ = Except.ok (0, [])) := by
  constructor
  · intro c l v conf rs h
    unfold evaluateBullishSetup at h
    cases hc : bullishCounts c l with
    | error e => rw [hc] at h; exact Except.noConfusion h
    | ok u =>
      obtain ⟨p, m, rs'⟩ := u
      rw [hc] at h
      injection h with he
      have hm : m = 14 := (bullishCounts_bounds c l hc).1
      subst hm
      have hrs : rs' = rs := congrArg (fun t => t.2.2) he
      subst hrs
      have hconf : conf = (setupScore p 14 rs').2.1 :=
        (congrArg (fun t => t.2.1) he).symm
      refine ⟨p, rfl, ?_⟩
      rw [hconf]
      unfold setupScore
      rw [if_pos (by norm_num : (0:ℚ) < 14)]
  · intro res mp hg cps suc
    rfl

/-- Witness for C4's amended statement at `ctxA`/`lvlA` (all 14 points
earned, confidence 100) and at an empty support list. -/
theorem bullish_confidence_formula_witness :
    (∃ p : ℚ, bullishCounts ctxA lvlA = Except.ok (p, 14, reasonsBullishA) ∧
      (100 : ℚ) = p / 14 * 100) ∧
    bullishSupportPts ⟨[], [], none, [], none, false⟩ = Except.ok (0, []) := by
  have h1 : evaluateBullishSetup ctxA lvlA =
      Except.ok (true, 100, reasonsBullishA) := by
    simp [ctxA, lvlA, reasonsBullishA, evaluateBullishSetup, bullishCounts,
      bullishSupportPts, bullishTrendPts, bullishPcrPts, bullishRsiPts,
      bullishStochPts, bullishGexPts, setupScore]
    norm_num
  exact ⟨bullish_confidence_formula.1 ctxA lvlA true 100 reasonsBullishA h1,
    bullish_confidence_formula.2 [] none [] none false⟩

/-- C6 counterexample: with support `[100]` and current price 50 the
criterion awards its full 3 points, yet 50 is not within 2% of the level
100 — the code's test `current_price <= support * 1.02` is one-sided and
also fires arbitrarily far below the level. -/
theorem support_band_one_sided_counterexample :
    bullishSupportPts ⟨[100], [], none, [], some 50, true⟩ =
      Except.ok (3, ["Price near support"]) ∧
    ¬ (|(50 : ℚ) - 100| / 100 ≤ 2/100) := by
  constructor
  · unfold bullishSupportPts
    norm_num
  · rw [abs_of_nonpos (by norm_num : (50 : ℚ) - 100 ≤ 0)]
    norm_num

/-- C6 (amended): for a positive nearest support level `s`, the criterion
awards 3 points exactly on `cp ≤ 1.02·s` (at or up to 2% above the level,
or anywhere below it), 1 point exactly on `1.02·s < cp ≤ 1.05·s`, and 0
points exactly on `cp > 1.05·s`. -/
theorem bullish_support_points_characterization (s cp : ℚ) (rest res hg : List ℚ)
    (mp : Option ℚ) (suc : Bool) (hs : 0 < s) :
    (cp ≤ s * (102/100) →
      bullishSupportPts ⟨s :: rest, res, mp, hg, some cp, suc⟩ =
        Except.ok (3, ["Price near support"])) ∧
    (s * (102/100) < cp → cp ≤ s * (105/100) →
      bullishSupportPts ⟨s :: rest, res, mp, hg, some cp, suc⟩ =
        Except.ok (1, ["Price approaching support"])) ∧
    (s * (105/100) < cp →
      bullishSupportPts ⟨s :: rest, res, mp, hg, some cp, suc⟩ =
        Except.ok (0, [])) := by
  refine ⟨?_, ?_, ?_⟩
  · intro h
    unfold bullishSupportPts
    dsimp only
    rw [if_pos h]
  · intro h1 h2
    unfold bullishSupportPts
    dsimp only
    rw [if_neg (not_le.mpr h1), if_pos h2]
  · intro h3
    have hord : s * (102/100) < s * (105/100) := by nlinarith
    unfold bullishSupportPts
    dsimp only
    rw [if_neg (not_le.mpr (lt_trans hord h3)), if_neg (not_le.mpr h3)]

/-- Witness for C6's amended statement: support 100 with prices 101, 104
and 106 land in the 3-, 1- and 0-point cases. -/
theorem bullish_support_points_characterization_witness :
    bullishSupportPts ⟨[100], [], none, [], some 101, true⟩ =
      Except.ok (3, ["Price near support"]) ∧
    bullishSupportPts ⟨[100], [], none, [], some 104, true⟩ =
      Except.ok (1, ["Price approaching support"]) ∧
    bullishSupportPts ⟨[100], [], none, [], some 106, true⟩ =
      Except.ok (0, []) :=
  ⟨(bullish_support_points_characterization 100 101 [] [] [] none true
      (by norm_num)).1 (by norm_num),
   (bullish_support_points_characterization 100 104 [] [] [] none true
      (by norm_num)).2.1 (by norm_num) (by norm_num),
   (bullish_support_points_characterization 100 106 [] [] [] none true
      (by norm_num)).2.2 (by norm_num)⟩

/-! ### `sorted(set(...))` and the stable minimum of `_calculate_max_pain` -/

lemma mem_insertSorted (x a : ℚ) (l : List ℚ) :
    a ∈ insertSorted x l ↔ a = x ∨ a ∈ l := by
  induction l with
  | nil => simp [insertSorted]
  | cons y ys ih =>
    unfold insertSorted
    split_ifs with h1 h2
    · simp [List.mem_cons]
    · subst h2
      simp [List.mem_cons]
    · simp [List.mem_cons, ih]
      tauto

lemma sorted_insertSorted (x : ℚ) (l : List ℚ) (h : List.Sorted (· < ·) l) :
    List.Sorted (· < ·) (insertSorted x l) := by
  induction l with
  | nil => simp [insertSorted]
  | cons y ys ih =>
    rw [List.sorted_cons] at h
    obtain ⟨hy, hys⟩ := h
    unfold insertSorted
    split_ifs with h1 h2
    · rw [List.sorted_cons]
      refine ⟨?_, ?_⟩
      · intro b hb
        rcases List.mem_cons.mp hb with rfl | hb'
        · exact h1
        · exact lt_trans h1 (hy b hb')
      · rw [List.sorted_cons]
        exact ⟨hy, hys⟩
    · rw [List.sorted_cons]
      exact ⟨hy, hys⟩
    · rw [List.sorted_cons]
      refine ⟨?_, ih hys⟩
      intro b hb
      rcases (mem_insertSorted x b ys).mp hb with rfl | hb'
      · exact lt_of_le_of_ne (le_of_not_lt h1) (fun he => h2 he.symm)
      · exact hy b hb'

lemma sortedUnique_sorted (l : List ℚ) : List.Sorted (· < ·) (sortedUnique l) := by
  induction l with
  | nil => simp [sortedUnique]
  | cons x xs ih => exact sorted_insertSorted x (sortedUnique xs) ih

lemma mem_sortedUnique (a : ℚ) (l : List ℚ) : a ∈ sortedUnique l ↔ a ∈ l := by
  induction l with
  | nil => simp [sortedUnique]
  | cons x xs ih =>
    show a ∈ insertSorted x (sortedUnique xs) ↔ _
    rw [mem_insertSorted, ih]
    simp [List.mem_cons]

lemma strikesOf_sorted (calls puts : List OptionRow) :
    List.Sorted (· < ·) (strikesOf calls puts) :=
  sortedUnique_sorted _

/-- The running-minimum fold of Python `min(..., key=lambda x: x[1])`:
its result splits the scanned list into a strictly-greater prefix, the
result itself, and a tail, and is a global minimum of the values — i.e. it
is the first element attaining the minimum. -/
lemma foldl_painStep_spec (xs : List (ℚ × ℚ)) : ∀ acc : ℚ × ℚ,
    ∃ l₁ l₂, acc :: xs = l₁ ++ (xs.foldl painStep acc) :: l₂ ∧
      (∀ x ∈ l₁, (xs.foldl painStep acc).2 < x.2) ∧
      (∀ x ∈ acc :: xs, (xs.foldl painStep acc).2 ≤ x.2) := by
  induction xs with
  | nil =>
    intro acc
    exact ⟨[], [], rfl, by simp, by simp⟩
  | cons y ys ih =>
    intro acc
    rw [List.foldl_cons]
    by_cases hy : y.2 < acc.2
    · have hstep : painStep acc y = y := by simp [painStep, hy]
      rw [hstep]
      obtain ⟨l₁, l₂, heq, hlt, hle⟩ := ih y
      refine ⟨acc :: l₁, l₂, ?_, ?_, ?_⟩
      · rw [List.cons_append, ← heq]
      · intro x hx
        rcases List.mem_cons.mp hx with rfl | hx'
        · exact lt_of_le_of_lt (hle y (List.mem_cons_self y ys)) hy
        · exact hlt x hx'
      · intro x hx
        rcases List.mem_cons.mp hx with rfl | hx'
        · exact le_of_lt (lt_of_le_of_lt (hle y (List.mem_cons_self y ys)) hy)
        · exact hle x hx'
    · have hstep : painStep acc y = acc := by simp [painStep, hy]
      rw [hstep]
      obtain ⟨l₁, l₂, heq, hlt, hle⟩ := ih acc
      cases l₁ with
      | nil =>
        simp only [List.nil_append] at heq
        injection heq with h1 h2
        refine ⟨[], y :: l₂, ?_, by simp, ?_⟩
        · rw [List.nil_append, ← h1, ← h2]
        · intro x hx
          rcases List.mem_cons.mp hx with rfl | hx'
          · exact hle x (List.mem_cons_self _ _)
          · rcases List.mem_cons.mp hx' with rfl | hx''
            · exact le_trans (hle acc (List.mem_cons_self acc ys)) (le_of_not_lt hy)
            · exact hle x (List.mem_cons_of_mem acc hx'')
      | cons a t =>
        rw [List.cons_append] at heq
        injection heq with h1 h2
        subst h1
        refine ⟨acc :: y :: t, l₂, ?_, ?_, ?_⟩
        · rw [List.cons_append, List.cons_append, ← h2]
        · intro x hx
          rcases List.mem_cons.mp hx with rfl | hx'
          · exact hlt x (List.mem_cons_self _ _)
          · rcases List.mem_cons.mp hx' with rfl | hx''
            · exact lt_of_lt_of_le (hlt acc (List.mem_cons_self acc t)) (le_of_not_lt hy)
            · exact hlt x (List.mem_cons_of_mem acc hx'')
        · intro x hx
          rcases List.mem_cons.mp hx with rfl | hx'
          · exact hle x (List.mem_cons_self _ _)
          · rcases List.mem_cons.mp hx' with rfl | hx''
            · exact le_trans (hle acc (List.mem_cons_self acc ys)) (le_of_not_lt hy)
            · exact hle x (List.mem_cons_of_mem acc hx'')

/-- C7: max pain is the argmin of `totalPain` over the ascending unique
strikes of the nearest expiration: when strikes exist, the result is a
strike, the strike list is strictly ascending, the result's total pain is
minimal, and every strike strictly before the result in ascending order has
strictly greater pain (the stable-min tie-break); with no strikes the
result is the current price. -/
theorem calculate_max_pain_spec (calls puts : List OptionRow) (cp : ℚ) :
    (strikesOf calls puts = [] → calculateMaxPain calls puts cp = cp) ∧
    (strikesOf calls puts ≠ [] →
      calculateMaxPain calls puts cp ∈ strikesOf calls puts ∧
      List.Sorted (· < ·) (strikesOf calls puts) ∧
      (∀ s ∈ strikesOf calls puts,
        totalPain calls puts (calculateMaxPain calls puts cp) ≤
          totalPain calls puts s) ∧
      ∃ l₁ l₂, strikesOf calls puts = l₁ ++ calculateMaxPain calls puts cp :: l₂ ∧
        ∀ s ∈ l₁,
          totalPain calls puts (calculateMaxPain calls puts cp) <
            totalPain calls puts s) := by
  cases hstr : strikesOf calls puts with
  | nil =>
    refine ⟨fun _ => ?_, fun hne => absurd rfl hne⟩
    unfold calculateMaxPain
    rw [hstr]
    rfl
  | cons s0 srest =>
    refine ⟨fun h => List.noConfusion h, fun _ => ?_⟩
    have hmp : calculateMaxPain calls puts cp =
        ((srest.map (fun s => (s, totalPain calls puts s))).foldl painStep
          (s0, totalPain calls puts s0)).1 := by
      unfold calculateMaxPain
      rw [hstr]
      rfl
    obtain ⟨l₁, l₂, heq, hlt, hle⟩ :=
      foldl_painStep_spec (srest.map (fun s => (s, totalPain calls puts s)))
        (s0, totalPain calls puts s0)
    set m := (srest.map (fun s => (s, totalPain calls puts s))).foldl painStep
      (s0, totalPain calls puts s0) with hm
    have hpainlist : (s0 :: srest).map (fun s => (s, totalPain calls puts s)) =
        l₁ ++ m :: l₂ := by
      rw [List.map_cons]
      exact heq
    have hshape : ∀ x ∈ (s0 :: srest).map (fun s => (s, totalPain calls puts s)),
        x = (x.1, totalPain calls puts x.1) := by
      intro x hx
      obtain ⟨s, _, rfl⟩ := List.mem_map.mp hx
      rfl
    have hmmem : m ∈ (s0 :: srest).map (fun s => (s, totalPain calls puts s)) := by
      rw [hpainlist]
      exact List.mem_append_right _ (List.mem_cons_self _ _)
    have hm2 : m.2 = totalPain calls puts m.1 :=
      congrArg Prod.snd (hshape m hmmem)
    have hmp_mem : m.1 ∈ s0 :: srest := by
      obtain ⟨s, hs, hfs⟩ := List.mem_map.mp hmmem
      have hsm : s = m.1 := congrArg Prod.fst hfs
      rw [← hsm]
      exact hs
    rw [hmp]
    refine ⟨hmp_mem, hstr ▸ strikesOf_sorted calls puts, ?_, ?_⟩
    · intro s hsmem
      have hfmem : (s, totalPain calls puts s) ∈
          (s0 :: srest).map (fun s => (s, totalPain calls puts s)) :=
        List.mem_map_of_mem _ hsmem
      have h2 := hle _ (by rw [List.map_cons] at hfmem; exact hfmem)
      rw [hm2] at h2
      exact h2
    · refine ⟨l₁.map Prod.fst, l₂.map Prod.fst, ?_, ?_⟩
      · have hfst := congrArg (List.map Prod.fst) hpainlist
        have hcomp : Prod.fst ∘ (fun s : ℚ => (s, totalPain calls puts s)) = id := rfl
        rw [List.map_map, hcomp, List.map_id, List.map_append, List.map_cons] at hfst
        exact hfst
      · intro s hs
        obtain ⟨x, hx, rfl⟩ := List.mem_map.mp hs
        have hxpain : x ∈ (s0 :: srest).map (fun s => (s, totalPain calls puts s)) := by
          rw [hpainlist]
          exact List.mem_append_left _ hx
        have hx2 : x.2 = totalPain calls puts x.1 := congrArg Prod.snd (hshape x hxpain)
        have hxl := hlt x hx
        rw [hm2, hx2] at hxl
        exact hxl

/-- Witness for C7: with no option rows the result is the current price 77;
with a single call at strike 100 the result is a member of the strike
list. -/
theorem calculate_max_pain_spec_witness :
    calculateMaxPain [] [] 77 = 77 ∧
    calculateMaxPain [⟨100, 1, 0⟩] [] 50 ∈ strikesOf [⟨100, 1, 0⟩] [] :=
  ⟨(calculate_max_pain_spec [] [] 77).1 rfl,
   ((calculate_max_pain_spec [⟨100, 1, 0⟩] [] 50).2
      (by simp [strikesOf, sortedUnique, insertSorted])).1⟩

/-- C8: the max-pain strike is invariant under any permutation of the call
rows and of the put rows of the input surface. -/
theorem max_pain_perm_invariant (calls calls' puts puts' : List OptionRow)
    (cp : ℚ) (hc : calls.Perm calls') (hp : puts.Perm puts') :
    calculateMaxPain calls puts cp = calculateMaxPain calls' puts' cp := by
  have hpain : ∀ s, totalPain calls puts s = totalPain calls' puts' s := by
    intro s
    unfold totalPain
    rw [(hc.map _).sum_eq, (hp.map _).sum_eq]
  have hstrikes : strikesOf calls puts = strikesOf calls' puts' := by
    have hmem : ∀ a, a ∈ strikesOf calls puts ↔ a ∈ strikesOf calls' puts' := by
      intro a
      show a ∈ sortedUnique _ ↔ a ∈ sortedUnique _
      rw [mem_sortedUnique, mem_sortedUnique]
      exact ((hc.map OptionRow.strike).append (hp.map OptionRow.strike)).mem_iff
    haveI : IsIrrefl ℚ (· < ·) := ⟨lt_irrefl⟩
    haveI : IsAntisymm ℚ (· < ·) := ⟨fun a b h1 h2 => absurd h2 (lt_asymm h1)⟩
    have hnd1 : (strikesOf calls puts).Nodup := (strikesOf_sorted calls puts).nodup
    have hnd2 : (strikesOf calls' puts').Nodup := (strikesOf_sorted calls' puts').nodup
    exact List.eq_of_perm_of_sorted
      ((List.perm_ext_iff_of_nodup hnd1 hnd2).mpr hmem)
      (strikesOf_sorted calls puts) (strikesOf_sorted calls' puts')
  unfold calculateMaxPain
  rw [hstrikes]
  have hmapeq : (strikesOf calls' puts').map (fun s => (s, totalPain calls puts s)) =
      (strikesOf calls' puts').map (fun s => (s, totalPain calls' puts' s)) :=
    List.map_congr_left (fun a _ => by rw [hpain a])
  rw [hmapeq]

/-- Witness for C8: swapping the two call rows and the two put rows of a
small surface leaves the max-pain strike unchanged. -/
theorem max_pain_perm_invariant_witness :
    calculateMaxPain [⟨100, 2, 0⟩, ⟨110, 1, 0⟩] [⟨90, 3, 0⟩, ⟨100, 1, 0⟩] 95 =
      calculateMaxPain [⟨110, 1, 0⟩, ⟨100, 2, 0⟩] [⟨100, 1, 0⟩, ⟨90, 3, 0⟩] 95 :=
  max_pain_perm_invariant _ _ _ _ 95
    (List.Perm.swap (⟨110, 1, 0⟩ : OptionRow) ⟨100, 2, 0⟩ [])
    (List.Perm.swap (⟨100, 1, 0⟩ : OptionRow) ⟨90, 3, 0⟩ [])

/-- C9: with an empty options surface `map_levels` returns the failure dict
(`success = False`, empty levels, `max_pain = None`, no `current_price`
key), and `determine_setup` applied to that dict with any market context
does not raise: each level criterion short-circuits on its empty/`None`
field before reading the missing `current_price` key and contributes 0
earned points. -/
theorem empty_surface_graceful (closes : List ℚ) (c : MarketContext) :
    mapLevels closes [] =
      { support := [], resistance := [], max_pain := none, high_gamma := [],
        current_price := none, success := false } ∧
    (∃ r : SetupResult,
      determineSetup c
        { support := [], resistance := [], max_pain := none, high_gamma := [],
          current_price := none, success := false } = Except.ok r) ∧
    bullishSupportPts ⟨[], [], none, [], none, false⟩ = Except.ok (0, []) ∧
    bearishResistancePts ⟨[], [], none, [], none, false⟩ = Except.ok (0, []) ∧
    neutralMaxPainPts ⟨[], [], none, [], none, false⟩ = Except.ok (0, []) := by
  refine ⟨?_, ⟨_, rfl⟩, rfl, rfl, rfl⟩
  unfold mapLevels
  cases closes.getLast? <;> rfl

/-- C10: on any setup-results dict without a `current_price` key — in
particular the exact dict `determine_setup` returns — the risk manager
returns a stop loss with `technical = 0` and `percentage = 0` and a
risk/reward with `ratio = reward = risk = 0`, while position sizing falls
back to the defaults `iv = 0.3` and `gex = 0`. -/
theorem risk_defaults_missing_current_price :
    (∀ sd : SetupDict, sd.current_price = none →
      (getRecommendations sd).stop_loss.technical = 0 ∧
      (getRecommendations sd).stop_loss.percentage = 0 ∧
      (getRecommendations sd).risk_reward.ratio = 0 ∧
      (getRecommendations sd).risk_reward.reward = 0 ∧
      (getRecommendations sd).risk_reward.risk = 0) ∧
    (∀ (c : MarketContext) (l : KeyLevels) (r : SetupResult),
      determineSetup c l = Except.ok r →
      (getRecommendations (setupResultToDict r)).stop_loss.technical = 0 ∧
      (getRecommendations (setupResultToDict r)).stop_loss.percentage = 0 ∧
      (getRecommendations (setupResultToDict r)).risk_reward.ratio = 0 ∧
      (getRecommendations (setupResultToDict r)).risk_reward.reward = 0 ∧
      (getRecommendations (setupResultToDict r)).risk_reward.risk = 0 ∧
      (getRecommendations (setupResultToDict r)).position_size.factors.iv = 3/10 ∧
      (getRecommendations (setupResultToDict r)).position_size.factors.gex = 0) := by
  have key : ∀ sd : SetupDict, sd.current_price = none →
      (getRecommendations sd).stop_loss.technical = 0 ∧
      (getRecommendations sd).stop_loss.percentage = 0 ∧
      (getRecommendations sd).risk_reward.ratio = 0 ∧
      (getRecommendations sd).risk_reward.reward = 0 ∧
      (getRecommendations sd).risk_reward.risk = 0 := by
    intro sd h
    simp [getRecommendations, calculateStopLoss, calculateRiskReward, h]
  refine ⟨key, ?_⟩
  intro c l r _
  obtain ⟨z1, z2, z3, z4, z5⟩ := key (setupResultToDict r) rfl
  exact ⟨z1, z2, z3, z4, z5, rfl, rfl⟩

/-- Witness for C10 at the concrete `resultB` dict (the `weak_neutral`
output of `determine_setup` on `ctxB`/`lvlFailB`) and at a literal dict
missing `current_price`. -/
theorem risk_defaults_missing_current_price_witness :
    ((getRecommendations (setupResultToDict resultB)).stop_loss.technical = 0 ∧
      (getRecommendations (setupResultToDict resultB)).stop_loss.percentage = 0 ∧
      (getRecommendations (setupResultToDict resultB)).risk_reward.ratio = 0 ∧
      (getRecommendations (setupResultToDict resultB)).risk_reward.reward = 0 ∧
      (getRecommendations (setupResultToDict resultB)).risk_reward.risk = 0 ∧
      (getRecommendations (setupResultToDict resultB)).position_size.factors.iv = 3/10 ∧
      (getRecommendations (setupResultToDict resultB)).position_size.factors.gex = 0) ∧
    (getRecommendations
      ⟨some "bullish", some 80, none, none, none, none, none, none, none,
        none, none, none⟩).stop_loss.technical = 0 := by
  have h1 : evaluateBullishSetup ctxB lvlFailB =
      Except.ok (false, 100/7, reasonsBullishB) := by
    simp [ctxB, lvlFailB, reasonsBullishB, evaluateBullishSetup, bullishCounts,
      bullishSupportPts, bullishTrendPts, bullishPcrPts, bullishRsiPts,
      bullishStochPts, bullishGexPts, setupScore]
    norm_num
  have h2 : evaluateBearishSetup ctxB lvlFailB =
      Except.ok (false, 200/7, reasonsBearishB) := by
    simp [ctxB, lvlFailB, reasonsBearishB, evaluateBearishSetup, bearishCounts,
      bearishResistancePts, bearishTrendPts, bearishPcrPts, bearishRsiPts,
      bearishStochPts, bearishGexPts, setupScore]
    norm_num
  have h3 : evaluateNeutralSetup ctxB lvlFailB =
      Except.ok (false, 225/4, reasonsNeutralB) := by
    simp [ctxB, lvlFailB, reasonsNeutralB, evaluateNeutralSetup, neutralCounts,
      neutralMaxPainPts, neutralTrendPts, neutralPcrPts, neutralIvPts,
      neutralRsiPts, neutralStochPts, neutralGexPts, setupScore]
    norm_num
  have hsort : sortDesc [(⟨"bullish", 100/7, false, reasonsBullishB⟩ : SetupCand),
      ⟨"bearish", 200/7, false, reasonsBearishB⟩,
      ⟨"neutral", 225/4, false, reasonsNeutralB⟩] =
      [⟨"neutral", 225/4, false, reasonsNeutralB⟩,
        ⟨"bearish", 200/7, false, reasonsBearishB⟩,
        ⟨"bullish", 100/7, false, reasonsBullishB⟩] := by
    norm_num [sortDesc, insertDesc, keyLtB, candKey]
  have h4 : determineSetup ctxB lvlFailB = Except.ok resultB := by
    unfold determineSetup
    rw [h1, h2, h3]
    dsimp only
    rw [hsort]
    rfl
  exact ⟨risk_defaults_missing_current_price.2 ctxB lvlFailB resultB h4,
    (risk_defaults_missing_current_price.1
      ⟨some "bullish", some 80, none, none, none, none, none, none, none,
        none, none, none⟩ rfl).1⟩

/-- C3 counterexample: on a `weak_bullish` setup dict, `get_signals` does
NOT run the bullish entry check — `"weak_bullish".startswith('bullish')` is
false, so the dispatch falls to the `else` branch.  On `rowsC`/`sdC` the
bullish check would report a volume spike (strength 20), but `get_signals`
returns `(False, 0, ["Unknown setup type"])`. -/
theorem weak_label_dispatch_counterexample :
    ¬ (∀ (rows : List ConfRow) (sd : SetupDict) (res : SignalsResult),
      sd.setup = some "weak_bullish" →
      getSignals (some rows) sd = Except.ok res →
      res.entry = ⟨(checkBullishEntry rows sd).1, (checkBullishEntry rows sd).2.1,
        (checkBullishEntry rows sd).2.2⟩) := by
  intro hcl
  have hbc : checkBullishEntry rowsC sdC = (false, 20, ["Volume spike"]) := by
    simp [rowsC, sdC, checkBullishEntry, List.getLast?, List.dropLast]
    norm_num
  have hrun : getSignals (some rowsC) sdC = Except.ok resC := by
    have hp1 : pyStartswith "weak_bullish" "bullish" = false := rfl
    have hp2 : pyStartswith "weak_bullish" "bearish" = false := rfl
    have hp3 : pyStartswith "weak_bullish" "neutral" = false := rfl
    simp [rowsC, sdC, resC, getSignals, checkExitSignals, List.getLast?,
      List.dropLast, hp1, hp2, hp3]
  have hres := hcl rowsC sdC resC rfl hrun
  rw [hbc] at hres
  simp [resC] at hres

/-- `_check_exit_signals` cannot raise when the setup label matches neither
`bullish` nor `bearish`: every branch that could read the missing `ema10`
column is guarded by `startswith`. -/
lemma checkExitSignals_ok_of_directionless (st : String) (rows : List ConfRow)
    (sd : SetupDict) (hb : pyStartswith st "bullish" = false)
    (hs : pyStartswith st "bearish" = false) :
    ∃ x, checkExitSignals st rows sd = Except.ok x := by
  unfold checkExitSignals
  by_cases hlen : rows.length < 5
  · rw [if_pos hlen]
    exact ⟨_, rfl⟩
  · rw [if_neg hlen]
    cases rows.getLast? with
    | none =>
      cases rows.dropLast.getLast? with
      | none => exact ⟨_, rfl⟩
      | some prev => exact ⟨_, rfl⟩
    | some latest =>
      cases rows.dropLast.getLast? with
      | none => exact ⟨_, rfl⟩
      | some prev =>
        dsimp only
        rw [hb, hs]
        exact ⟨_, rfl⟩

/-- On a setup dict whose label starts with none of `bullish`, `bearish`,
`neutral`, `get_signals` succeeds and its entry part is the `else` branch
`(False, 0, ["Unknown setup type"])`. -/
lemma getSignals_unknown_entry (rows : List ConfRow) (sd : SetupDict)
    (st : String) (hset : sd.setup = some st)
    (h1 : pyStartswith st "bullish" = false)
    (h2 : pyStartswith st "bearish" = false)
    (h3 : pyStartswith st "neutral" = false) :
    ∃ res : SignalsResult, getSignals (some rows) sd = Except.ok res ∧
      res.entry = ⟨false, 0, ["Unknown setup type"]⟩ := by
  obtain ⟨x, hx⟩ := checkExitSignals_ok_of_directionless st rows sd h1 h2
  unfold getSignals
  rw [hset]
  simp only [Option.getD_some]
  simp only [h1, h2, h3]
  rw [hx]
  exact ⟨_, rfl, rfl⟩

/-- C3 (amended): the `startswith` dispatch never strips the `weak_`
prefix: for each of the labels `weak_bullish`, `weak_bearish` and
`weak_neutral`, `get_signals` takes the `else` branch and returns
`(False, 0, ["Unknown setup type"])` as the entry result, for every data
frame and setup dict — the weak variants are NOT routed to their base
label's entry check. -/
theorem weak_label_entry_unknown (rows : List ConfRow) (sd : SetupDict)
    (h : sd.setup = some "weak_bullish" ∨ sd.setup = some "weak_bearish" ∨
      sd.setup = some "weak_neutral") :
    ∃ res : SignalsResult, getSignals (some rows) sd = Except.ok res ∧
      res.entry = ⟨false, 0, ["Unknown setup type"]⟩ := by
  rcases h with h | h | h
  · exact getSignals_unknown_entry rows sd "weak_bullish" h rfl rfl rfl
  · exact getSignals_unknown_entry rows sd "weak_bearish" h rfl rfl rfl
  · exact getSignals_unknown_entry rows sd "weak_neutral" h rfl rfl rfl

/-- Witness for C3's amended statement at `rowsC`/`sdC`. -/
theorem weak_label_entry_unknown_witness :
    ∃ res : SignalsResult, getSignals (some rowsC) sdC = Except.ok res ∧
      res.entry = ⟨false, 0, ["Unknown setup type"]⟩ :=
  weak_label_entry_unknown rowsC sdC (Or.inl rfl)

end Scanner
